import Mathlib

/-!
Verification development for the gateway-api conversion engine of this
repository (pilot/pkg/config/kube/gateway/conversion.go).

The Go source is embedded shallowly:

* Go slices become `List`, Go maps become association lists or functions,
  `nil` pointers become `Option`.
* Machine integers (`int`, `int32`) become `Int`; all values reached by the
  claims stay far below any overflow boundary.
* The only floating-point code in the engine is the percentage computation in
  `standardizeWeights`.  It is modelled in exact arithmetic: the truncation
  `int(perc * 100)` becomes truncated integer division (`Int.tdiv`), and the
  fractional remainder becomes the exact rational `Rat.divInt` difference.
* `sort.Sort` (an unstable comparison sort, whose tie order the spec flags as
  unspecified) is modelled by a structural insertion sort producing one valid
  descending ordering; the theorems below use only properties that hold for
  every valid ordering (it is a permutation of the index range).
-/

namespace Istio

/-- Go: `func intSum(n []int) int` — the accumulation loop `r += i`,
a left fold starting from 0. -/
def intSum (n : List Int) : Int :=
  n.foldl (fun r i => r + i) 0

/-- Go: `results[idx]++` on a slice, as a positional list update. -/
def incrAt : List Int → Nat → List Int
  | [], _ => []
  | x :: xs, 0 => (x + 1) :: xs
  | x :: xs, Nat.succ n => x :: incrAt xs n

/-- Go: the final loop of `standardizeWeights`:
`for _, idx := range order { if remaining <= 0 { break }; remaining--; results[idx]++ }`. -/
def distributeRemainder : List Int → List Nat → Int → List Int
  | results, [], _ => results
  | results, idx :: rest, remaining =>
    if remaining ≤ 0 then results
    else distributeRemainder (incrAt results idx) rest (remaining - 1)

/-- Insert one (index, remainder) pair into a list already sorted by
descending remainder. -/
def insertDesc (x : Nat × ℚ) : List (Nat × ℚ) → List (Nat × ℚ)
  | [] => [x]
  | y :: ys => if x.2 ≤ y.2 then y :: insertDesc x ys else x :: y :: ys

/-- Insertion sort by descending remainder; one valid result of Go's
unstable `sort.Sort(sort.Reverse(...))`. -/
def sortDesc : List (Nat × ℚ) → List (Nat × ℚ)
  | [] => []
  | x :: xs => insertDesc x (sortDesc xs)

/-- Go: `func argsort(n []float64) []int` — sorts an index array alongside the
values, descending.  Modelled by sorting (index, value) pairs and projecting
the indices. -/
def argsort (n : List ℚ) : List Nat :=
  (sortDesc ((List.range n.length).zip n)).map Prod.fst

/-- Go: `func standardizeWeights(weights []int) []int`.
The float computation `perc := float64(w)/float64(total);
rounded := int(perc * 100); remainder := perc*100 - float64(rounded)`
is modelled exactly: `rounded` is `100*w/total` truncated toward zero
(`Int.tdiv`, which is what Go's `int(...)` conversion does), and the
remainder is the exact rational `(100*w - rounded*total) / total`. -/
def standardizeWeights (weights : List Int) : List Int :=
  if weights.length == 1 then [0]
  else
    let total0 := intSum weights
    let ws := if total0 == 0 then weights.map (fun _ => (1 : Int)) else weights
    let total : Int := if total0 == 0 then (weights.length : Int) else total0
    let pairs := ws.map (fun w =>
      let rounded : Int := Int.tdiv (100 * w) total
      (rounded, Rat.divInt (100 * w - rounded * total) total))
    let results := pairs.map Prod.fst
    let remainders := pairs.map Prod.snd
    let remaining := 100 - intSum results
    let order := argsort remainders
    distributeRemainder results order remaining

/-! Data model: Kubernetes gateway-api input resources, istio output
resources, and the snapshot aggregate, translated from the Go types used by
conversion.go.  Go field names are kept except where Lean reserves the word
(`Namespace` becomes `ns`, `From` becomes `fromPolicy`, `Matches` becomes
`matchList`). -/

/-- Go: config.GroupVersionKind (the version component plays no role in the
conversion logic and is omitted). -/
structure GroupVersionKind where
  group : String
  kind : String
deriving DecidableEq

/-- Go: config.Meta — the resource identity and metadata fields read or
written by the converter. -/
structure Meta where
  gvk : GroupVersionKind
  name : String
  ns : String
  labels : List (String × String)
  generation : Int
  creationTimestamp : Nat
  domain : String
deriving DecidableEq

/-- Go: config.Config — metadata plus a typed spec and a typed status. -/
structure Config (σ : Type) (τ : Type) where
  meta : Meta
  spec : σ
  status : τ
deriving DecidableEq

/-- Go: metav1.LabelSelectorRequirement (external apimachinery type). -/
structure LabelSelectorRequirement where
  key : String
  op : String
  values : List String
deriving DecidableEq

/-- Go: metav1.LabelSelector (external apimachinery type); a Go map of match
labels is modelled as an association list. -/
structure LabelSelector where
  matchLabels : List (String × String)
  matchExpressions : List LabelSelectorRequirement
deriving DecidableEq

/-- Association-list lookup, modelling Go map indexing for string maps. -/
def lookupStr (m : List (String × String)) (k : String) : Option String :=
  (m.find? (fun p => p.1 == k)).map Prod.snd

/-- Validity of one selector requirement, as enforced by the external
apimachinery selector parser: In/NotIn need at least one value,
Exists/DoesNotExist need none, any other operator is invalid. -/
def reqValid (r : LabelSelectorRequirement) : Bool :=
  if r.op = "In" ∨ r.op = "NotIn" then !r.values.isEmpty
  else if r.op = "Exists" ∨ r.op = "DoesNotExist" then r.values.isEmpty
  else false

/-- Matching of one selector requirement against a label set (external
apimachinery semantics; NotIn and DoesNotExist match a missing key). -/
def reqMatches (r : LabelSelectorRequirement) (lbls : List (String × String)) : Bool :=
  if r.op = "In" then
    match lookupStr lbls r.key with
    | some v => r.values.contains v
    | none => false
  else if r.op = "NotIn" then
    match lookupStr lbls r.key with
    | some v => !r.values.contains v
    | none => true
  else if r.op = "Exists" then (lookupStr lbls r.key).isSome
  else if r.op = "DoesNotExist" then (lookupStr lbls r.key).isNone
  else false

/-- Modelled boundary: metav1.LabelSelectorAsSelector from the external
Kubernetes apimachinery library.  Compilation fails (none) exactly when some
match expression is invalid; the empty selector matches everything. -/
def labelSelectorAsSelector (s : LabelSelector) :
    Option (List (String × String) → Bool) :=
  if s.matchExpressions.any (fun r => !reqValid r) then none
  else some (fun lbls =>
    s.matchLabels.all (fun p => lookupStr lbls p.1 == some p.2) &&
    s.matchExpressions.all (fun r => reqMatches r lbls))

/-- Go: k8s.GatewayReference. -/
structure GatewayReference where
  name : String
  ns : String
deriving DecidableEq

/-- Go: k8s.RouteGateways — the gateway-selection policy carried on a route. -/
structure RouteGateways where
  allow : String
  gatewayRefs : List GatewayReference
deriving DecidableEq

/-- Go: k8s.RouteNamespaces (the From field is named fromPolicy). -/
structure RouteNamespaces where
  fromPolicy : String
  selector : LabelSelector
deriving DecidableEq

/-- Go: k8s.RouteBindingSelector — the route-binding selector of a listener. -/
structure RouteBindingSelector where
  kind : String
  group : String
  selector : LabelSelector
  namespaces : RouteNamespaces
deriving DecidableEq

/-- Go: k8s.LocalObjectReference. -/
structure LocalObjectReference where
  group : String
  kind : String
  name : String
deriving DecidableEq

/-- Go: k8s.HTTPPathMatch. -/
structure HTTPPathMatch where
  type : String
  value : String
deriving DecidableEq

/-- Go: k8s.HTTPHeaderMatch (its Values map modelled as an association
list). -/
structure HTTPHeaderMatch where
  type : String
  values : List (String × String)
deriving DecidableEq

/-- Go: k8s.HTTPRouteMatch. -/
structure HTTPRouteMatch where
  path : HTTPPathMatch
  headers : Option HTTPHeaderMatch
deriving DecidableEq

/-- Go: k8s.HTTPRequestHeaderFilter. -/
structure HTTPRequestHeaderFilter where
  set : List (String × String)
  add : List (String × String)
  remove : List String
deriving DecidableEq

/-- Go: k8s.HTTPRouteFilter. -/
structure HTTPRouteFilter where
  type : String
  requestHeaderModifier : Option HTTPRequestHeaderFilter
deriving DecidableEq

/-- Go: k8s.HTTPRouteForwardTo. -/
structure HTTPRouteForwardTo where
  serviceName : Option String
  backendRef : Option LocalObjectReference
  port : Option Nat
  weight : Int
  filters : List HTTPRouteFilter
deriving DecidableEq

/-- Go: k8s.HTTPRouteRule. -/
structure HTTPRouteRule where
  matchList : List HTTPRouteMatch
  filters : List HTTPRouteFilter
  forwardTo : List HTTPRouteForwardTo
deriving DecidableEq

/-- Go: k8s.HTTPRouteSpec (hostnames modelled as plain strings). -/
structure HTTPRouteSpec where
  gateways : RouteGateways
  hostnames : List String
  rules : List HTTPRouteRule
deriving DecidableEq

/-- Go: k8s.RouteForwardTo (used by TCP and TLS routes). -/
structure RouteForwardTo where
  serviceName : Option String
  backendRef : Option LocalObjectReference
  port : Option Nat
  weight : Int
deriving DecidableEq

/-- Go: k8s.TCPRouteMatch (only an extension reference, unused by the
converter). -/
structure TCPRouteMatch where
  extensionRef : Option LocalObjectReference
deriving DecidableEq

/-- Go: k8s.TCPRouteRule. -/
structure TCPRouteRule where
  matchList : List TCPRouteMatch
  forwardTo : List RouteForwardTo
deriving DecidableEq

/-- Go: k8s.TCPRouteSpec. -/
structure TCPRouteSpec where
  gateways : RouteGateways
  rules : List TCPRouteRule
deriving DecidableEq

/-- Go: k8s.TLSRouteMatch (SNI hostname patterns). -/
structure TLSRouteMatch where
  snis : List String
deriving DecidableEq

/-- Go: k8s.TLSRouteRule. -/
structure TLSRouteRule where
  matchList : List TLSRouteMatch
  forwardTo : List RouteForwardTo
deriving DecidableEq

/-- Go: k8s.TLSRouteSpec. -/
structure TLSRouteSpec where
  gateways : RouteGateways
  rules : List TLSRouteRule
deriving DecidableEq

/-- The dynamic spec payload of a route config.Config: Go stores the spec as
an interface and switches on its dynamic type; modelled as a tagged sum. -/
inductive RouteSpec where
  | http (s : HTTPRouteSpec)
  | tcp (s : TCPRouteSpec)
  | tls (s : TLSRouteSpec)
  | other
deriving DecidableEq

/-- Go: k8s.GatewayTLSConfig. -/
structure GatewayTLSConfig where
  mode : String
  certificateRef : Option LocalObjectReference
deriving DecidableEq

/-- Go: k8s.Listener. -/
structure Listener where
  hostname : Option String
  port : Nat
  protocol : String
  tls : Option GatewayTLSConfig
  routes : RouteBindingSelector
deriving DecidableEq

/-- Go: k8s.GatewaySpec. -/
structure GatewaySpec where
  gatewayClassName : String
  listeners : List Listener
deriving DecidableEq

/-- Go: k8s.GatewayClassSpec. -/
structure GatewayClassSpec where
  controller : String
deriving DecidableEq

/-- Go: k8s.BackendRef of a BackendPolicy. -/
structure BackendRef where
  group : String
  kind : String
  name : String
  port : Option Nat
deriving DecidableEq

/-- Go: the TLS section of k8s.BackendPolicySpec. -/
structure BackendPolicyTLS where
  certificateAuthorityRef : Option LocalObjectReference
deriving DecidableEq

/-- Go: k8s.BackendPolicySpec. -/
structure BackendPolicySpec where
  backendRefs : List BackendRef
  tls : Option BackendPolicyTLS
deriving DecidableEq

/-- Go: metav1.Condition; the timestamp is an abstract tick. -/
structure Condition where
  type : String
  status : String
  observedGeneration : Int
  lastTransitionTime : Nat
  reason : String
  message : String
deriving DecidableEq

/-- Go: k8s.ListenerStatus. -/
structure ListenerStatus where
  port : Nat
  protocol : String
  hostname : Option String
  conditions : List Condition
deriving DecidableEq

/-- The Go zero value of k8s.ListenerStatus, produced by
`make([]k8s.ListenerStatus, n)` during a status reset. -/
def zeroListenerStatus : ListenerStatus :=
  { port := 0, protocol := "", hostname := none, conditions := [] }

/-- Go: k8s.GatewayAddress (only ever reset to the empty list). -/
structure GatewayAddress where
  value : String
deriving DecidableEq

/-- Go: k8s.GatewayStatus. -/
structure GatewayStatus where
  addresses : List GatewayAddress
  listeners : List ListenerStatus
  conditions : List Condition
deriving DecidableEq

/-- Go: k8s.GatewayClassStatus. -/
structure GatewayClassStatus where
  conditions : List Condition
deriving DecidableEq

/-- Go: k8s.RouteGatewayStatus. -/
structure RouteGatewayStatus where
  gatewayRef : GatewayReference
  conditions : List Condition
deriving DecidableEq

/-- Go: the status of an HTTP/TCP/TLS route (all three kinds carry the same
Gateways field). -/
structure RouteStatus where
  gateways : List RouteGatewayStatus
deriving DecidableEq

/-- Go: corev1.Namespace — only its labels are read. -/
structure NamespaceMeta where
  labels : List (String × String)
deriving DecidableEq

/-- Go: type KubernetesResources struct — one immutable input snapshot. -/
structure KubernetesResources where
  gatewayClass : List (Config GatewayClassSpec GatewayClassStatus)
  gateway : List (Config GatewaySpec GatewayStatus)
  httpRoute : List (Config RouteSpec RouteStatus)
  tcpRoute : List (Config RouteSpec RouteStatus)
  tlsRoute : List (Config RouteSpec RouteStatus)
  backendPolicy : List (Config BackendPolicySpec Unit)
  namespaces : List (String × NamespaceMeta)
  domain : String
deriving DecidableEq

/-! Istio output model (istio.io/api networking types), restricted to the
fields the converter writes. -/

/-- Istio: PortSelector. -/
structure PortSelector where
  number : Nat
deriving DecidableEq

/-- Istio: Destination. -/
structure Destination where
  host : String
  port : Option PortSelector
deriving DecidableEq

/-- Istio: StringMatch. -/
inductive StringMatch where
  | exact (s : String)
  | regex (s : String)
deriving DecidableEq

/-- Istio: Headers_HeaderOperations. -/
structure HeaderOperations where
  add : List (String × String)
  remove : List String
  set : List (String × String)
deriving DecidableEq

/-- Istio: Headers. -/
structure Headers where
  request : HeaderOperations
deriving DecidableEq

/-- Istio: HTTPMatchRequest (its Headers map modelled as an association
list in input order). -/
structure HTTPMatchRequest where
  uri : Option StringMatch
  headers : Option (List (String × StringMatch))
deriving DecidableEq

/-- Istio: HTTPRouteDestination. -/
structure HTTPRouteDestination where
  destination : Destination
  weight : Int
  headers : Option Headers
deriving DecidableEq

/-- Istio: RouteDestination. -/
structure RouteDestination where
  destination : Destination
  weight : Int
deriving DecidableEq

/-- Istio: HTTPRoute (named to avoid clashing with the input route kind). -/
structure IstioHTTPRoute where
  matchList : List HTTPMatchRequest
  headers : Option Headers
  route : List HTTPRouteDestination
deriving DecidableEq

/-- Istio: L4MatchAttributes (never constructed by the converter). -/
structure L4MatchAttributes where
  destinationSubnets : List String
deriving DecidableEq

/-- Istio: TLSMatchAttributes. -/
structure TLSMatchAttributes where
  sniHosts : List String
deriving DecidableEq

/-- Istio: TCPRoute of a virtual service. -/
structure IstioTCPRoute where
  matchList : List L4MatchAttributes
  route : List RouteDestination
deriving DecidableEq

/-- Istio: TLSRoute of a virtual service. -/
structure IstioTLSRoute where
  matchList : List TLSMatchAttributes
  route : List RouteDestination
deriving DecidableEq

/-- Istio: VirtualService spec. -/
structure VirtualServiceSpec where
  hosts : List String
  gateways : List String
  http : List IstioHTTPRoute
  tcp : List IstioTCPRoute
  tls : List IstioTLSRoute
deriving DecidableEq

/-- Istio: ServerTLSSettings mode; the Go zero value is PASSTHROUGH. -/
inductive ServerTLSMode where
  | passthrough
  | simple
deriving DecidableEq

/-- Istio: ServerTLSSettings. -/
structure ServerTLSSettings where
  httpsRedirect : Bool
  mode : ServerTLSMode
  credentialName : String
deriving DecidableEq

/-- Istio: the Port of a gateway Server. -/
structure ServerPort where
  number : Nat
  protocol : String
  name : String
deriving DecidableEq

/-- Istio: Server. -/
structure Server where
  hosts : List String
  port : ServerPort
  tls : Option ServerTLSSettings
deriving DecidableEq

/-- Istio: Gateway spec. -/
structure IstioGatewaySpec where
  servers : List Server
  selector : List (String × String)
deriving DecidableEq

/-- Istio: ClientTLSSettings mode (only SIMPLE is emitted). -/
inductive ClientTLSMode where
  | simple
deriving DecidableEq

/-- Istio: ClientTLSSettings. -/
structure ClientTLSSettings where
  credentialName : String
  mode : ClientTLSMode
deriving DecidableEq

/-- Istio: TrafficPolicy_PortTrafficPolicy. -/
structure PortTrafficPolicy where
  port : PortSelector
  tls : ClientTLSSettings
deriving DecidableEq

/-- Istio: TrafficPolicy. -/
structure TrafficPolicy where
  tls : Option ClientTLSSettings
  portLevelSettings : List PortTrafficPolicy
deriving DecidableEq

/-- Istio: DestinationRule spec. -/
structure DestinationRuleSpec where
  host : String
  trafficPolicy : TrafficPolicy
deriving DecidableEq

/-- Go: type OutputResources struct. -/
structure OutputResources where
  gateway : List (Config IstioGatewaySpec Unit)
  virtualService : List (Config VirtualServiceSpec Unit)
  destinationRule : List (Config DestinationRuleSpec Unit)
deriving DecidableEq

/-! Constants used by the converter.  String values of the gateway-api
constants are those of siged gateway-api v1alpha1; the two istio constants
(`KubernetesGatewayName`, `IstioMeshGateway`) live outside src/ in
pkg/config/constants and are reproduced by value. -/

/-- Go: ControllerName = "istio.io/gateway-controller". -/
def controllerName : String := "istio.io/gateway-controller"

/-- Go: constants.KubernetesGatewayName (external istio constant). -/
def kubernetesGatewayName : String := "istio-autogenerated-k8s-gateway"

/-- Go: constants.IstioMeshGateway (external istio constant). -/
def istioMeshGateway : String := "mesh"

/-- Go: experimentalMeshGatewayName = "mesh". -/
def experimentalMeshGatewayName : String := "mesh"

/-- Go: the default route group "networking.x-k8s.io". -/
def defaultRouteGroup : String := "networking.x-k8s.io"

/-- Go: k8s.RouteSelectAll. -/
def routeSelectAll : String := "All"

/-- Go: k8s.RouteSelectSame. -/
def routeSelectSame : String := "Same"

/-- Go: k8s.RouteSelectSelector. -/
def routeSelectSelector : String := "Selector"

/-- Go: k8s.GatewayAllowAll. -/
def gatewayAllowAll : String := "All"

/-- Go: k8s.GatewayAllowFromList. -/
def gatewayAllowFromList : String := "FromList"

/-- Go: k8s.GatewayAllowSameNamespace. -/
def gatewayAllowSameNamespace : String := "SameNamespace"

/-- Go: kstatus.StatusTrue. -/
def statusTrue : String := "True"

/-- Go: k8s.HTTPRouteFilterRequestHeaderModifier. -/
def filterRequestHeaderModifier : String := "RequestHeaderModifier"

/-- Istio collection identity for emitted VirtualService configs. -/
def gvkVirtualService : GroupVersionKind :=
  { group := "networking.istio.io", kind := "VirtualService" }

/-- Istio collection identity for emitted Gateway configs. -/
def gvkGateway : GroupVersionKind :=
  { group := "networking.istio.io", kind := "Gateway" }

/-- Istio collection identity for emitted DestinationRule configs. -/
def gvkDestinationRule : GroupVersionKind :=
  { group := "networking.istio.io", kind := "DestinationRule" }

/-- Go: func emptyOrEqual(have, expected string) bool. -/
def emptyOrEqual (hv : String) (expected : String) : Bool :=
  hv == "" || hv == expected

/-- Go: func getGatewaySelectorFromSpec(spec config.Spec) *k8s.RouteGateways —
a type switch over the dynamic spec type, nil for any other type. -/
def getGatewaySelectorFromSpec : RouteSpec → Option RouteGateways
  | .http s => some s.gateways
  | .tcp s => some s.gateways
  | .tls s => some s.gateways
  | .other => none

/-- Association-list lookup of namespace metadata, modelling the Go map
`map[string]*corev1.Namespace` (a missing key is Go nil). -/
def lookupNamespace (m : List (String × NamespaceMeta)) (k : String) :
    Option NamespaceMeta :=
  (m.find? (fun p => p.1 == k)).map Prod.snd

/-- The namespace-selection switch of isRouteMatch (the From field,
defaulted to Same when unset; Go switch statements with no default fall
through — continue — on unknown string values, so they pass). -/
def routeNamespacePass (routes : RouteBindingSelector)
    (cfg : Config RouteSpec RouteStatus) (gateway : Meta)
    (namespaces : List (String × NamespaceMeta)) : Bool :=
  let fromPolicy := if routes.namespaces.fromPolicy = "" then routeSelectSame
    else routes.namespaces.fromPolicy
  if fromPolicy = routeSelectAll then true
  else if fromPolicy = routeSelectSame then gateway.ns == cfg.meta.ns
  else if fromPolicy = routeSelectSelector then
    match labelSelectorAsSelector routes.namespaces.selector with
    | none => false
    | some nss =>
      match lookupNamespace namespaces cfg.meta.ns with
      | none => false
      | some nsm => nss nsm.labels
  else true

/-- The gateway-selection switch of isRouteMatch (the Allow policy carried
on the route, defaulted to SameNamespace for a nil selector). -/
def routeGatewayAllowPass (cfg : Config RouteSpec RouteStatus) (gateway : Meta) :
    Bool :=
  let gatewaySelector := (getGatewaySelectorFromSpec cfg.spec).getD
    { allow := gatewayAllowSameNamespace, gatewayRefs := [] }
  if gatewaySelector.allow = gatewayAllowAll then true
  else if gatewaySelector.allow = gatewayAllowFromList then
    gatewaySelector.gatewayRefs.any (fun gw =>
      gw.name == gateway.name && gw.ns == gateway.ns)
  else if gatewaySelector.allow = gatewayAllowSameNamespace then
    gateway.ns == cfg.meta.ns
  else true

/-- Go: func isRouteMatch(cfg config.Config, gateway config.Meta, routes
k8s.RouteBindingSelector, namespaces map[string]\*corev1.Namespace) bool.
A sequence of early `return false` clauses: kind, group, label selector,
namespace policy, and the route's own gateway-selection policy. -/
def isRouteMatch (cfg : Config RouteSpec RouteStatus) (gateway : Meta)
    (routes : RouteBindingSelector) (namespaces : List (String × NamespaceMeta)) :
    Bool :=
  if routes.kind ≠ cfg.meta.gvk.kind then false
  else if (if routes.group = "" then defaultRouteGroup else routes.group)
      ≠ cfg.meta.gvk.group then false
  else
    match labelSelectorAsSelector routes.selector with
    | none => false
    | some ls =>
      if !ls cfg.meta.labels then false
      else if !routeNamespacePass routes cfg gateway namespaces then false
      else routeGatewayAllowPass cfg gateway

/-- Go: func (r \*KubernetesResources) fetchHTTPRoutes — filter the snapshot
HTTP routes through the binding predicate. -/
def fetchHTTPRoutes (r : KubernetesResources) (gateway : Meta)
    (routes : RouteBindingSelector) : List (Config RouteSpec RouteStatus) :=
  r.httpRoute.filter (fun http => isRouteMatch http gateway routes r.namespaces)

/-- Go: func (r \*KubernetesResources) fetchTCPRoutes. -/
def fetchTCPRoutes (r : KubernetesResources) (gateway : Meta)
    (routes : RouteBindingSelector) : List (Config RouteSpec RouteStatus) :=
  r.tcpRoute.filter (fun tcp => isRouteMatch tcp gateway routes r.namespaces)

/-- Go: func (r \*KubernetesResources) fetchTLSRoutes. -/
def fetchTLSRoutes (r : KubernetesResources) (gateway : Meta)
    (routes : RouteBindingSelector) : List (Config RouteSpec RouteStatus) :=
  r.tlsRoute.filter (fun tls => isRouteMatch tls gateway routes r.namespaces)

/-- Go: type RouteKey struct — unique identity of a route. -/
structure RouteKey where
  gvk : GroupVersionKind
  name : String
  ns : String
deriving DecidableEq

/-- Go: func toRouteKey(c config.Config) RouteKey. -/
def toRouteKey (c : Config RouteSpec RouteStatus) : RouteKey :=
  { gvk := c.meta.gvk, name := c.meta.name, ns := c.meta.ns }

/-- The Go map routeToGateway, modelled as a total function; a key is
present exactly when its list is nonempty, because the Go code only ever
appends nonempty contributions to entries. -/
def RouteMap : Type := RouteKey → List String

/-- The empty route-ownership map. -/
def emptyRouteMap : RouteMap := fun _ => []

/-- Go: routeToGateway[k] = append(routeToGateway[k], g). -/
def updateMap (m : RouteMap) (k : RouteKey) (g : String) : RouteMap :=
  fun k2 => if k2 = k then m k2 ++ [g] else m k2

/-- One fetch loop of convertGateway: append the gateway name to the map
entry of every matched route, in list order. -/
def addRoutesToMap (m : RouteMap) (qname : String)
    (routes : List (Config RouteSpec RouteStatus)) : RouteMap :=
  routes.foldl (fun acc rt => updateMap acc (toRouteKey rt) qname) m

/-- Content comparison of two conditions: status, reason, message and
observed generation; the timestamp is deliberately excluded. -/
def conditionContentDiffers (a b : Condition) : Bool :=
  a.status != b.status || a.reason != b.reason || a.message != b.message ||
    a.observedGeneration != b.observedGeneration

/-- Modelled from the spec: kstatus.ConditionallyUpdateCondition
(pilot/pkg/model/kstatus, which is not under src/).  Spec section 4.5:
replace an existing condition of the same type only if status, reason,
message, or observed generation differ (a timestamp change alone never
triggers a rewrite); append when no condition of that type exists. -/
def conditionallyUpdateCondition (conds : List Condition) (c : Condition) :
    List Condition :=
  if conds.any (fun e => e.type == c.type) then
    conds.map (fun e =>
      if e.type == c.type then (if conditionContentDiffers e c then c else e) else e)
  else conds ++ [c]

/-- Go: func createRouteStatus(gateways []string, obj config.Config).
The mesh token gets the fixed placeholder namespace "default"; other
entries split "namespace/name".  (Go indexes the split result directly and
would panic on a name without a slash; entries are always built with one.) -/
def createRouteStatus (gateways : List String) (obj : Config RouteSpec RouteStatus)
    (now : Nat) : List RouteGatewayStatus :=
  gateways.map (fun gw =>
    let ref : GatewayReference :=
      if gw = istioMeshGateway then
        { name := experimentalMeshGatewayName, ns := "default" }
      else
        let s := gw.splitOn "/"
        { name := s.getD 1 "", ns := s.getD 0 "" }
    let cond : Condition :=
      { type := "Admitted"
        status := statusTrue
        observedGeneration := obj.meta.generation
        lastTransitionTime := now
        reason := "RouteAdmitted"
        message := "Route admitted" }
    { gatewayRef := ref, conditions := [cond] })

/-- Go: func buildDestination(to k8s.HTTPRouteForwardTo, ns, domain string).
A target that names no service keeps the zero-value empty host: the
backendRef branch only logs an error and the destination is still
returned. -/
def buildDestination (fwd : HTTPRouteForwardTo) (ns domain : String) : Destination :=
  { host :=
      match fwd.serviceName with
      | some s => s ++ "." ++ ns ++ ".svc." ++ domain
      | none => ""
    port := fwd.port.map (fun p => { number := p }) }

/-- Go: func buildGenericDestination(to k8s.RouteForwardTo, ns, domain
string) — same behavior as buildDestination for the generic forward type. -/
def buildGenericDestination (fwd : RouteForwardTo) (ns domain : String) : Destination :=
  { host :=
      match fwd.serviceName with
      | some s => s ++ "." ++ ns ++ ".svc." ++ domain
      | none => ""
    port := fwd.port.map (fun p => { number := p }) }

/-- Go: func createHeadersFilter(filter \*k8s.HTTPRequestHeaderFilter). -/
def createHeadersFilter : Option HTTPRequestHeaderFilter → Option Headers
  | none => none
  | some filter => some { request :=
      { add := filter.add, remove := filter.remove, set := filter.set } }

/-- Go: func buildHTTPDestination(action []k8s.HTTPRouteForwardTo, ns string,
domain string).  One destination per forwarding target; the per-target
filter loop overwrites Headers, so the last header-modifier filter wins. -/
def buildHTTPDestination (action : List HTTPRouteForwardTo) (ns domain : String) :
    List HTTPRouteDestination :=
  if action.isEmpty then []
  else
    let weights := standardizeWeights (action.map (fun w => w.weight))
    action.enum.map (fun iw =>
      { destination := buildDestination iw.2 ns domain
        weight := weights.getD iw.1 0
        headers := iw.2.filters.foldl (fun acc filter =>
          if filter.type = filterRequestHeaderModifier then
            createHeadersFilter filter.requestHeaderModifier
          else acc) none })

/-- Go: func buildTCPDestination(action []k8s.RouteForwardTo, ns, domain
string). -/
def buildTCPDestination (action : List RouteForwardTo) (ns domain : String) :
    List RouteDestination :=
  if action.isEmpty then []
  else
    let weights := standardizeWeights (action.map (fun w => w.weight))
    action.enum.map (fun iw =>
      { destination := buildGenericDestination iw.2 ns domain
        weight := weights.getD iw.1 0 })

/-- Go: func buildTCPMatch — always nil (the schema only carries extension
references, unimplemented). -/
def buildTCPMatch (_ : List TCPRouteMatch) : List L4MatchAttributes := []

/-- Go: func hostnamesToStringlist. -/
def hostnamesToStringlist (h : List String) : List String :=
  h.map (fun i => i)

/-- Go: func buildTLSMatch — an empty match list is rewritten to an explicit
match-everything SNI match. -/
def buildTLSMatch (m : List TLSRouteMatch) : List TLSMatchAttributes :=
  if m.isEmpty then [{ sniHosts := ["*"] }]
  else m.map (fun mt => { sniHosts := hostnamesToStringlist mt.snis })

/-- Go: func hostnameToStringList. -/
def hostnameToStringList (h : List String) : List String :=
  h.map (fun i => i)

/-- Modelled boundary: regexp.QuoteMeta from the Go standard library —
escape every regular-expression metacharacter with a backslash.  The two
brace characters are written by code point. -/
def quoteMeta (s : String) : String :=
  String.mk (s.data.flatMap (fun c =>
    if (['\\', '.', '+', '*', '?', '(', ')', '|', '[', ']',
        Char.ofNat 123, Char.ofNat 125, '^', '$'].contains c)
    then ['\\', c] else [c]))

/-- Go: const prefixMatchRegex — optionally matches a trailing path
segment. -/
def prefixMatchRegex : String := "((\\/).*)?"

/-- Go: strings.TrimSuffix. -/
def trimSuffix (s suffix : String) : String :=
  if s.endsWith suffix then s.dropRight suffix.length else s

/-- Go: func createURIMatch(match k8s.HTTPRouteMatch) — prefix (and default)
matches compile to an anchored regular expression, exact matches pass the
literal, regex matches pass through, anything else is dropped (nil). -/
def createURIMatch (m : HTTPRouteMatch) : Option StringMatch :=
  if m.path.type = "" ∨ m.path.type = "ImplementationSpecific" ∨ m.path.type = "Prefix" then
    some (.regex (quoteMeta (trimSuffix m.path.value "/") ++ prefixMatchRegex))
  else if m.path.type = "Exact" then some (.exact m.path.value)
  else if m.path.type = "RegularExpression" then some (.regex m.path.value)
  else none

/-- Go: func createHeadersMatch(match k8s.HTTPRouteMatch) — only exact and
implementation-default header matching is supported; other kinds degrade to
nil. -/
def createHeadersMatch (m : HTTPRouteMatch) : Option (List (String × StringMatch)) :=
  match m.headers with
  | none => none
  | some h =>
    if h.type = "" ∨ h.type = "Exact" ∨ h.type = "ImplementationSpecific" then
      some (h.values.map (fun p => (p.1, StringMatch.exact p.2)))
    else none

/-- Projection of the dynamic route spec to an HTTP spec.  Go type-asserts
(`obj.Spec.(*k8s.HTTPRouteSpec)`) and would panic on a wrong dynamic type;
theorems that rely on this projection restrict to snapshots whose HTTP list
carries HTTP specs. -/
def asHTTPRouteSpec : RouteSpec → HTTPRouteSpec
  | .http s => s
  | _ => { gateways := { allow := "", gatewayRefs := [] }, hostnames := [], rules := [] }

/-- Projection of the dynamic route spec to a TCP spec (see
asHTTPRouteSpec). -/
def asTCPRouteSpec : RouteSpec → TCPRouteSpec
  | .tcp s => s
  | _ => { gateways := { allow := "", gatewayRefs := [] }, rules := [] }

/-- Projection of the dynamic route spec to a TLS spec (see
asHTTPRouteSpec). -/
def asTLSRouteSpec : RouteSpec → TLSRouteSpec
  | .tls s => s
  | _ => { gateways := { allow := "", gatewayRefs := [] }, rules := [] }

/-- Go: func buildHTTPVirtualServices — one virtual-service config per HTTP
route; the in-place route status mutation is returned as a value. -/
def buildHTTPVirtualServices (obj : Config RouteSpec RouteStatus)
    (gateways : List String) (domain : String) (now : Nat) :
    List (Config VirtualServiceSpec Unit) × RouteStatus :=
  let route := asHTTPRouteSpec obj.spec
  let newStatus : RouteStatus := { gateways := createRouteStatus gateways obj now }
  let name := obj.meta.name ++ "-" ++ kubernetesGatewayName
  let httproutes := route.rules.map (fun r =>
    ({ matchList := r.matchList.map (fun m =>
        { uri := createURIMatch m, headers := createHeadersMatch m })
       headers := r.filters.foldl (fun acc filter =>
         if filter.type = filterRequestHeaderModifier then
           createHeadersFilter filter.requestHeaderModifier
         else acc) none
       route := buildHTTPDestination r.forwardTo obj.meta.ns domain } : IstioHTTPRoute))
  let meta : Meta :=
    { gvk := gvkVirtualService
      name := name
      ns := obj.meta.ns
      labels := []
      generation := 0
      creationTimestamp := obj.meta.creationTimestamp
      domain := domain }
  let spec : VirtualServiceSpec :=
    { hosts := hostnameToStringList route.hostnames
      gateways := gateways
      http := httproutes
      tcp := []
      tls := [] }
  ([{ meta := meta, spec := spec, status := () }], newStatus)

/-- Go: func buildTCPVirtualService. -/
def buildTCPVirtualService (obj : Config RouteSpec RouteStatus)
    (gateways : List String) (domain : String) (now : Nat) :
    Config VirtualServiceSpec Unit × RouteStatus :=
  let route := asTCPRouteSpec obj.spec
  let newStatus : RouteStatus := { gateways := createRouteStatus gateways obj now }
  let routes := route.rules.map (fun r =>
    ({ matchList := buildTCPMatch r.matchList
       route := buildTCPDestination r.forwardTo obj.meta.ns domain } : IstioTCPRoute))
  let meta : Meta :=
    { gvk := gvkVirtualService
      name := obj.meta.name ++ "-tcp-" ++ kubernetesGatewayName
      ns := obj.meta.ns
      labels := []
      generation := 0
      creationTimestamp := obj.meta.creationTimestamp
      domain := domain }
  let spec : VirtualServiceSpec :=
    { hosts := ["*"]
      gateways := gateways
      http := []
      tcp := routes
      tls := [] }
  ({ meta := meta, spec := spec, status := () }, newStatus)

/-- Go: func buildTLSVirtualService. -/
def buildTLSVirtualService (obj : Config RouteSpec RouteStatus)
    (gateways : List String) (domain : String) (now : Nat) :
    Config VirtualServiceSpec Unit × RouteStatus :=
  let route := asTLSRouteSpec obj.spec
  let newStatus : RouteStatus := { gateways := createRouteStatus gateways obj now }
  let routes := route.rules.map (fun r =>
    ({ matchList := buildTLSMatch r.matchList
       route := buildTCPDestination r.forwardTo obj.meta.ns domain } : IstioTLSRoute))
  let meta : Meta :=
    { gvk := gvkVirtualService
      name := obj.meta.name ++ "-tls-" ++ kubernetesGatewayName
      ns := obj.meta.ns
      labels := []
      generation := 0
      creationTimestamp := obj.meta.creationTimestamp
      domain := domain }
  let spec : VirtualServiceSpec :=
    { hosts := ["*"]
      gateways := gateways
      http := []
      tcp := []
      tls := routes }
  ({ meta := meta, spec := spec, status := () }, newStatus)

/-- Go: func convertVirtualService — TCP routes, then TLS routes, then HTTP
routes, each converted only when present in the ownership map; route
statuses are returned alongside (position-aligned with the input lists,
untouched entries keep their old status). -/
def convertVirtualService (r : KubernetesResources) (m : RouteMap) (now : Nat) :
    List (Config VirtualServiceSpec Unit) ×
      List RouteStatus × List RouteStatus × List RouteStatus :=
  let tcpPart := r.tcpRoute.filterMap (fun obj =>
    if (m (toRouteKey obj)).isEmpty then none
    else some (buildTCPVirtualService obj (m (toRouteKey obj)) r.domain now).1)
  let tlsPart := r.tlsRoute.filterMap (fun obj =>
    if (m (toRouteKey obj)).isEmpty then none
    else some (buildTLSVirtualService obj (m (toRouteKey obj)) r.domain now).1)
  let httpPart := r.httpRoute.flatMap (fun obj =>
    if (m (toRouteKey obj)).isEmpty then []
    else (buildHTTPVirtualServices obj (m (toRouteKey obj)) r.domain now).1)
  let tcpStatuses := r.tcpRoute.map (fun obj =>
    if (m (toRouteKey obj)).isEmpty then obj.status
    else (buildTCPVirtualService obj (m (toRouteKey obj)) r.domain now).2)
  let tlsStatuses := r.tlsRoute.map (fun obj =>
    if (m (toRouteKey obj)).isEmpty then obj.status
    else (buildTLSVirtualService obj (m (toRouteKey obj)) r.domain now).2)
  let httpStatuses := r.httpRoute.map (fun obj =>
    if (m (toRouteKey obj)).isEmpty then obj.status
    else (buildHTTPVirtualServices obj (m (toRouteKey obj)) r.domain now).2)
  (tcpPart ++ tlsPart ++ httpPart, tcpStatuses, tlsStatuses, httpStatuses)

/-- Go: func buildSecretReference(ref k8s.LocalObjectReference) string. -/
def buildSecretReference (ref : LocalObjectReference) : String :=
  if !(emptyOrEqual ref.group "core") || !(emptyOrEqual ref.kind "Secret") then ""
  else ref.name

/-- Go: func convertDestinationRule — one destination rule per supported
backend reference of each backend policy, indexed names, port-level TLS when
the reference carries a port. -/
def convertDestinationRule (r : KubernetesResources) :
    List (Config DestinationRuleSpec Unit) :=
  r.backendPolicy.flatMap (fun obj =>
    obj.spec.backendRefs.enum.filterMap (fun iref =>
      let i := iref.1
      let ref := iref.2
      if emptyOrEqual ref.group "core" && emptyOrEqual ref.kind "Service" then
        let serviceName := ref.name ++ "." ++ obj.meta.ns ++ ".svc." ++ r.domain
        let tp : TrafficPolicy :=
          match obj.spec.tls with
          | some tlsbp =>
            match tlsbp.certificateAuthorityRef with
            | some caRef =>
              let tls : ClientTLSSettings :=
                { credentialName := buildSecretReference caRef, mode := .simple }
              match ref.port with
              | some p =>
                { tls := none, portLevelSettings := [{ port := { number := p }, tls := tls }] }
              | none => { tls := some tls, portLevelSettings := [] }
            | none => { tls := none, portLevelSettings := [] }
          | none => { tls := none, portLevelSettings := [] }
        let meta : Meta :=
          { gvk := gvkDestinationRule
            name := obj.meta.name ++ "-" ++ toString i ++ "-" ++ kubernetesGatewayName
            ns := obj.meta.ns
            labels := []
            generation := 0
            creationTimestamp := obj.meta.creationTimestamp
            domain := r.domain }
        some { meta := meta, spec := { host := serviceName, trafficPolicy := tp }, status := () }
      else none))

/-- Go: func buildHostnameMatch — unset or empty hostname means wildcard. -/
def buildHostnameMatch : Option String → List String
  | none => ["*"]
  | some h => if h = "" then ["*"] else [h]

/-- Go: func buildTLS(tls \*k8s.GatewayTLSConfig).  The Terminate (and
default) mode requires a certificate reference and voids TLS without one;
Passthrough needs none; an unrecognized mode leaves the Go zero value, whose
Mode field is PASSTHROUGH. -/
def buildTLS : Option GatewayTLSConfig → Option ServerTLSSettings
  | none => none
  | some tls =>
    if tls.mode = "" ∨ tls.mode = "Terminate" then
      match tls.certificateRef with
      | none => none
      | some ref =>
        some { httpsRedirect := false, mode := .simple,
               credentialName := buildSecretReference ref }
    else if tls.mode = "Passthrough" then
      some { httpsRedirect := false, mode := .passthrough, credentialName := "" }
    else
      some { httpsRedirect := false, mode := .passthrough, credentialName := "" }

/-- The Admitted condition written on an owned gateway class. -/
def admittedClassCondition (generation : Int) (now : Nat) : Condition :=
  { type := "Admitted", status := statusTrue, observedGeneration := generation,
    lastTransitionTime := now, reason := "Handled",
    message := "Handled by Istio controller" }

/-- Go: func getGatewayClasses — the set of class names owned by this
controller, plus the status updates written on the owned classes. -/
def getGatewayClasses (r : KubernetesResources) (now : Nat) :
    List String × List GatewayClassStatus :=
  ((r.gatewayClass.filter (fun obj => obj.spec.controller == controllerName)).map
      (fun obj => obj.meta.name),
   r.gatewayClass.map (fun obj =>
     if obj.spec.controller == controllerName then
       { conditions := conditionallyUpdateCondition obj.status.conditions
           (admittedClassCondition obj.meta.generation now) }
     else obj.status))

/-- The Ready condition written on each listener status. -/
def readyListenerCondition (generation : Int) (now : Nat) : Condition :=
  { type := "Ready", status := statusTrue, observedGeneration := generation,
    lastTransitionTime := now, reason := "ListenerReady", message := "No error found" }

/-- The Ready condition written on each admitted gateway. -/
def gatewayReadyCondition (generation : Int) (now : Nat) : Condition :=
  { type := "Ready", status := statusTrue, observedGeneration := generation,
    lastTransitionTime := now, reason := "ListenersValid", message := "Listeners valid" }

/-- The Scheduled condition written on each admitted gateway. -/
def gatewayScheduledCondition (generation : Int) (now : Nat) : Condition :=
  { type := "Scheduled", status := statusTrue, observedGeneration := generation,
    lastTransitionTime := now, reason := "ResourcesAvailable",
    message := "Resources available" }

/-- The body of the indexed per-listener loop of convertGateway: reconcile
the i-th listener status, build one server, and append the gateway name to
the map entry of every route matched by this listener (HTTP, then TCP, then
TLS). -/
def processListeners (r : KubernetesResources) (obj : Config GatewaySpec GatewayStatus)
    (qname : String) (now : Nat) :
    List Listener → Nat → GatewayStatus × List Server × RouteMap →
    GatewayStatus × List Server × RouteMap
  | [], _, st => st
  | l :: rest, i, (gs, servers, m) =>
    let cond := conditionallyUpdateCondition
      (gs.listeners.getD i zeroListenerStatus).conditions
      (readyListenerCondition obj.meta.generation now)
    let newLs : ListenerStatus :=
      { port := l.port
        protocol := l.protocol
        hostname := l.hostname
        conditions := cond }
    let gs2 := { gs with listeners := gs.listeners.set i newLs }
    let portName : String :=
      l.protocol.toLower ++ "-" ++ toString l.port ++ "-gateway-"
        ++ obj.meta.name ++ "-" ++ obj.meta.ns
    let sport : ServerPort :=
      { number := l.port
        protocol := l.protocol
        name := portName }
    let server : Server :=
      { hosts := buildHostnameMatch l.hostname
        port := sport
        tls := buildTLS l.tls }
    let m2 := addRoutesToMap (addRoutesToMap (addRoutesToMap m qname
      (fetchHTTPRoutes r obj.meta l.routes)) qname
      (fetchTCPRoutes r obj.meta l.routes)) qname
      (fetchTLSRoutes r obj.meta l.routes)
    processListeners r obj qname now rest (i + 1) (gs2, servers ++ [server], m2)

/-- The per-gateway body of convertGateway: admission by owned class, the
listener-status length repair, the listener loop, and the final gateway
conditions; a skipped gateway leaves its status untouched and emits
nothing. -/
def processGateway (r : KubernetesResources) (now : Nat) (classes : List String)
    (obj : Config GatewaySpec GatewayStatus) (m : RouteMap) :
    Option (Config IstioGatewaySpec Unit) × RouteMap × GatewayStatus :=
  if !(classes.contains obj.spec.gatewayClassName) then (none, m, obj.status)
  else
    let resetListeners : List ListenerStatus :=
      if obj.status.listeners.length ≠ obj.spec.listeners.length
      then List.replicate obj.spec.listeners.length zeroListenerStatus
      else obj.status.listeners
    let gs0 : GatewayStatus := { obj.status with addresses := [], listeners := resetListeners }
    let name := obj.meta.name ++ "-" ++ kubernetesGatewayName
    let st := processListeners r obj (obj.meta.ns ++ "/" ++ name) now
      obj.spec.listeners 0 (gs0, [], m)
    let meta : Meta :=
      { gvk := gvkGateway
        name := name
        ns := obj.meta.ns
        labels := []
        generation := 0
        creationTimestamp := obj.meta.creationTimestamp
        domain := r.domain }
    let gatewayConfig : Config IstioGatewaySpec Unit :=
      { meta := meta
        spec := { servers := st.2.1, selector := [("istio", "ingressgateway")] }
        status := () }
    let finalConds : List Condition :=
      conditionallyUpdateCondition
        (conditionallyUpdateCondition st.1.conditions
          (gatewayReadyCondition obj.meta.generation now))
        (gatewayScheduledCondition obj.meta.generation now)
    let finalStatus : GatewayStatus := { st.1 with conditions := finalConds }
    (some gatewayConfig, st.2.2, finalStatus)

/-- The gateway loop of convertGateway, threading the route-ownership map
left to right and collecting one status per input gateway. -/
def processGateways (r : KubernetesResources) (now : Nat) (classes : List String) :
    List (Config GatewaySpec GatewayStatus) → RouteMap →
    List (Config IstioGatewaySpec Unit) × RouteMap × List GatewayStatus
  | [], m => ([], m, [])
  | obj :: rest, m =>
    let p := processGateway r now classes obj m
    let q := processGateways r now classes rest p.2.1
    (p.1.toList ++ q.1, q.2.1, p.2.2 :: q.2.2)

/-- Go: func (r \*KubernetesResources) fetchMeshRoutes() []RouteKey — keys of
the HTTP routes that reference the mesh gateway token by name (one key per
matching reference; the reference namespace is ignored). -/
def fetchMeshRoutes (r : KubernetesResources) : List RouteKey :=
  r.httpRoute.flatMap (fun hr =>
    match getGatewaySelectorFromSpec hr.spec with
    | none => []
    | some gs =>
      if gs.gatewayRefs.isEmpty then []
      else gs.gatewayRefs.filterMap (fun ref =>
        if ref.name = experimentalMeshGatewayName then some (toRouteKey hr) else none))

/-- Go: func convertGateway(r \*KubernetesResources) ([]config.Config,
map[RouteKey][]string); returns the gateway configs, the route-ownership
map (with the mesh-route entries appended last), and the class and gateway
status updates. -/
def convertGateway (r : KubernetesResources) (now : Nat) :
    List (Config IstioGatewaySpec Unit) × RouteMap ×
      List GatewayClassStatus × List GatewayStatus :=
  let cs := getGatewayClasses r now
  let p := processGateways r now cs.1 r.gateway emptyRouteMap
  let m := (fetchMeshRoutes r).foldl
    (fun acc k => updateMap acc k experimentalMeshGatewayName) p.2.1
  (p.1, m, cs.2, p.2.2)

/-- The collected status updates of one conversion pass, position-aligned
with the snapshot lists (Go mutates these statuses in place on the snapshot
objects). -/
structure SnapshotStatuses where
  classes : List GatewayClassStatus
  gateways : List GatewayStatus
  tcp : List RouteStatus
  tls : List RouteStatus
  http : List RouteStatus
deriving DecidableEq

/-- Go: func convertResources(r \*KubernetesResources) OutputResources, plus
the in-place status mutations returned as a value.  The timestamp of every
condition written in one pass is the single abstract tick `now`. -/
def convertResources (r : KubernetesResources) (now : Nat) :
    OutputResources × SnapshotStatuses :=
  let g := convertGateway r now
  let vs := convertVirtualService r g.2.1 now
  let dr := convertDestinationRule r
  ({ gateway := g.1, virtualService := vs.1, destinationRule := dr },
   { classes := g.2.2.1, gateways := g.2.2.2,
     tcp := vs.2.1, tls := vs.2.2.1, http := vs.2.2.2 })

/-- Write a list of statuses back onto a list of configs (position-wise);
models the fact that the Go statuses were mutated in place on the snapshot
objects.  Extra configs keep their status. -/
def setStatuses {σ τ : Type} : List (Config σ τ) → List τ → List (Config σ τ)
  | [], _ => []
  | c :: cs, [] => c :: cs
  | c :: cs, s :: ss => { c with status := s } :: setStatuses cs ss

/-- The snapshot as the second conversion pass sees it: same metadata and
specs, statuses mutated by the first pass. -/
def applyStatuses (r : KubernetesResources) (st : SnapshotStatuses) :
    KubernetesResources :=
  { r with
    gatewayClass := setStatuses r.gatewayClass st.classes
    gateway := setStatuses r.gateway st.gateways
    tcpRoute := setStatuses r.tcpRoute st.tcp
    tlsRoute := setStatuses r.tlsRoute st.tls
    httpRoute := setStatuses r.httpRoute st.http }

/-- Erase the transition timestamp of a condition. -/
def stripConditionTime (c : Condition) : Condition :=
  { c with lastTransitionTime := 0 }

/-- Erase the transition timestamps of a listener status. -/
def stripListenerStatusTime (ls : ListenerStatus) : ListenerStatus :=
  { ls with conditions := ls.conditions.map stripConditionTime }

/-- Erase the transition timestamps of a gateway status. -/
def stripGatewayStatusTime (gs : GatewayStatus) : GatewayStatus :=
  { gs with listeners := gs.listeners.map stripListenerStatusTime
            conditions := gs.conditions.map stripConditionTime }

/-- Erase the transition timestamps of a route status. -/
def stripRouteStatusTime (rs : RouteStatus) : RouteStatus :=
  { rs with gateways := rs.gateways.map (fun g =>
      { g with conditions := g.conditions.map stripConditionTime }) }

/-- Erase every transition timestamp in a status bundle. -/
def stripSnapshotTimes (st : SnapshotStatuses) : SnapshotStatuses :=
  { classes := st.classes.map (fun c =>
      { conditions := c.conditions.map stripConditionTime })
    gateways := st.gateways.map stripGatewayStatusTime
    tcp := st.tcp.map stripRouteStatusTime
    tls := st.tls.map stripRouteStatusTime
    http := st.http.map stripRouteStatusTime }

/-- Zero-value HTTP route destination (getD default). -/
def defaultHTTPRouteDestination : HTTPRouteDestination :=
  { destination := { host := "", port := none }, weight := 0, headers := none }

/-- Zero-value TCP/TLS route destination (getD default). -/
def defaultRouteDestination : RouteDestination :=
  { destination := { host := "", port := none }, weight := 0 }

/-- Zero-value HTTP forwarding target (getD default). -/
def defaultHTTPForward : HTTPRouteForwardTo :=
  { serviceName := none, backendRef := none, port := none, weight := 0, filters := [] }

/-- Zero-value generic forwarding target (getD default). -/
def defaultRouteForward : RouteForwardTo :=
  { serviceName := none, backendRef := none, port := none, weight := 0 }

/-- A forwarding target that names a service ("a"), used as a concrete
fixture. -/
def fwdSvc : HTTPRouteForwardTo :=
  { serviceName := some "a", backendRef := none, port := none, weight := 1, filters := [] }

/-- A forwarding target that carries only a backendRef of a non-Service
kind (the unsupported shape), used as a concrete fixture. -/
def fwdBackend : HTTPRouteForwardTo :=
  { serviceName := none
    backendRef := some { group := "acme.io", kind := "Custom", name := "b" }
    port := none
    weight := 1
    filters := [] }

/-- An empty (match-everything) label selector, used as a concrete fixture. -/
def sampleLabelSelector : LabelSelector := { matchLabels := [], matchExpressions := [] }

/-- A listener route-binding selector with default fields, used as a concrete
fixture. -/
def sampleBindingSelector : RouteBindingSelector :=
  { kind := "HTTPRoute"
    group := ""
    selector := sampleLabelSelector
    namespaces := { fromPolicy := "All", selector := sampleLabelSelector } }

/-- The identity of the HTTPRoute input kind. -/
def gvkHTTPRouteIn : GroupVersionKind :=
  { group := "networking.x-k8s.io", kind := "HTTPRoute" }

/-- Resource metadata for fixtures: name and namespace, everything else
zero. -/
def plainMeta (name ns : String) : Meta :=
  { gvk := gvkHTTPRouteIn, name := name, ns := ns, labels := []
    generation := 0, creationTimestamp := 0, domain := "" }

/-- An HTTP route in namespace ns-b carrying an explicit SameNamespace
gateway policy, used as a concrete fixture. -/
def sampleRouteCfgSameNs : Config RouteSpec RouteStatus :=
  let gws : RouteGateways := { allow := "SameNamespace", gatewayRefs := [] }
  { meta := plainMeta "r" "ns-b"
    spec := RouteSpec.http { gateways := gws, hostnames := [], rules := [] }
    status := { gateways := [] } }

/-- The metadata of a gateway in namespace ns-a, used as a concrete fixture. -/
def sampleGatewayMeta : Meta :=
  { gvk := { group := "networking.x-k8s.io", kind := "Gateway" }
    name := "gw", ns := "ns-a", labels := [], generation := 0
    creationTimestamp := 0, domain := "" }

/-- An HTTP route whose gateway references name the mesh token, used as a
concrete fixture. -/
def sampleMeshRoute : Config RouteSpec RouteStatus :=
  let mref : GatewayReference := { name := "mesh", ns := "default" }
  let gws : RouteGateways := { allow := "FromList", gatewayRefs := [mref] }
  { meta := plainMeta "mr" "default"
    spec := RouteSpec.http { gateways := gws, hostnames := [], rules := [] }
    status := { gateways := [] } }

/-- A snapshot with one mesh-referencing HTTP route and no Gateway resource
at all, used as a concrete fixture. -/
def sampleMeshSnapshot : KubernetesResources :=
  { gatewayClass := [], gateway := [], httpRoute := [sampleMeshRoute]
    tcpRoute := [], tlsRoute := [], backendPolicy := [], namespaces := []
    domain := "cluster.local" }

/-- Zero-value route-binding selector (getD default). -/
def defaultBindingSelector : RouteBindingSelector :=
  let emptySel : LabelSelector := { matchLabels := [], matchExpressions := [] }
  { kind := "", group := "", selector := emptySel
    namespaces := { fromPolicy := "", selector := emptySel } }

/-- Zero-value listener (getD default). -/
def defaultListener : Listener :=
  { hostname := none, port := 0, protocol := "", tls := none
    routes := defaultBindingSelector }

/-- Zero-value gateway status (getD default). -/
def defaultGatewayStatus : GatewayStatus :=
  { addresses := [], listeners := [], conditions := [] }

/-- Zero-value gateway config (getD default). -/
def defaultGatewayConfig : Config GatewaySpec GatewayStatus :=
  { meta := plainMeta "" ""
    spec := { gatewayClassName := "", listeners := [] }
    status := defaultGatewayStatus }

/-- The server that the listener loop builds for one listener (the loop body
of convertGateway, server part). -/
def buildServer (obj : Config GatewaySpec GatewayStatus) (l : Listener) : Server :=
  let portName : String :=
    l.protocol.toLower ++ "-" ++ toString l.port ++ "-gateway-"
      ++ obj.meta.name ++ "-" ++ obj.meta.ns
  let sport : ServerPort :=
    { number := l.port
      protocol := l.protocol
      name := portName }
  { hosts := buildHostnameMatch l.hostname
    port := sport
    tls := buildTLS l.tls }

/-- The gateway-status component of the listener loop in isolation (proved
equal to the first component of processListeners below). -/
def listenersGS (obj : Config GatewaySpec GatewayStatus) (now : Nat) :
    List Listener → Nat → GatewayStatus → GatewayStatus
  | [], _, gs => gs
  | l :: rest, i, gs =>
    let cond := conditionallyUpdateCondition
      (gs.listeners.getD i zeroListenerStatus).conditions
      (readyListenerCondition obj.meta.generation now)
    let newLs : ListenerStatus :=
      { port := l.port
        protocol := l.protocol
        hostname := l.hostname
        conditions := cond }
    listenersGS obj now rest (i + 1) { gs with listeners := gs.listeners.set i newLs }

/-- The route-ownership-map component of the listener loop in isolation
(proved equal to the last component of processListeners below). -/
def listenersMap (r : KubernetesResources) (obj : Config GatewaySpec GatewayStatus)
    (qname : String) : List Listener → RouteMap → RouteMap
  | [], m => m
  | l :: rest, m =>
    let m2 := addRoutesToMap (addRoutesToMap (addRoutesToMap m qname
      (fetchHTTPRoutes r obj.meta l.routes)) qname
      (fetchTCPRoutes r obj.meta l.routes)) qname
      (fetchTLSRoutes r obj.meta l.routes)
    listenersMap r obj qname rest m2

/-- The status that convertGateway leaves on one input gateway (proved equal
to the status component of processGateway below). -/
def gatewayStatusAfter (_r : KubernetesResources) (now : Nat) (classes : List String)
    (obj : Config GatewaySpec GatewayStatus) : GatewayStatus :=
  if !(classes.contains obj.spec.gatewayClassName) then obj.status
  else
    let resetListeners : List ListenerStatus :=
      if obj.status.listeners.length ≠ obj.spec.listeners.length
      then List.replicate obj.spec.listeners.length zeroListenerStatus
      else obj.status.listeners
    let gs0 : GatewayStatus := { obj.status with addresses := [], listeners := resetListeners }
    let st1 := listenersGS obj now obj.spec.listeners 0 gs0
    let finalConds : List Condition :=
      conditionallyUpdateCondition
        (conditionallyUpdateCondition st1.conditions
          (gatewayReadyCondition obj.meta.generation now))
        (gatewayScheduledCondition obj.meta.generation now)
    { st1 with conditions := finalConds }

/-- A plain HTTP listener on port 80, used as a concrete fixture. -/
def sampleListener80 : Listener :=
  { hostname := none, port := 80, protocol := "HTTP", tls := none
    routes := sampleBindingSelector }

/-- An HTTPS listener on port 443 with a hostname, used as a concrete
fixture. -/
def sampleListener443 : Listener :=
  { hostname := some "example.com", port := 443, protocol := "HTTPS", tls := none
    routes := sampleBindingSelector }

/-- A gateway class owned by this controller, used as a concrete fixture. -/
def sampleGatewayClass : Config GatewayClassSpec GatewayClassStatus :=
  { meta := plainMeta "gc" ""
    spec := { controller := "istio.io/gateway-controller" }
    status := { conditions := [] } }

/-- A gateway of the owned class with two listeners whose pre-existing
status sequence has the wrong length (one entry), used as a concrete
fixture. -/
def sampleGateway : Config GatewaySpec GatewayStatus :=
  { meta := plainMeta "gw" "default"
    spec := { gatewayClassName := "gc", listeners := [sampleListener80, sampleListener443] }
    status := { addresses := [], listeners := [zeroListenerStatus], conditions := [] } }

/-- A snapshot with the fixture class and gateway and nothing else. -/
def sampleGatewaySnapshot : KubernetesResources :=
  { gatewayClass := [sampleGatewayClass], gateway := [sampleGateway]
    httpRoute := [], tcpRoute := [], tlsRoute := [], backendPolicy := []
    namespaces := [], domain := "cluster.local" }

/-- The number of routes with key k that one listener of a gateway matches
(HTTP, TCP and TLS fetches together). -/
def listenerMatchCount (r : KubernetesResources) (obj : Config GatewaySpec GatewayStatus)
    (l : Listener) (k : RouteKey) : Nat :=
  (fetchHTTPRoutes r obj.meta l.routes).countP (fun rt => toRouteKey rt == k)
    + (fetchTCPRoutes r obj.meta l.routes).countP (fun rt => toRouteKey rt == k)
    + (fetchTLSRoutes r obj.meta l.routes).countP (fun rt => toRouteKey rt == k)

/-- The namespace-qualified name under which convertGateway records a
gateway in the ownership map. -/
def gatewayQualifiedName (obj : Config GatewaySpec GatewayStatus) : String :=
  obj.meta.ns ++ "/" ++ (obj.meta.name ++ "-" ++ kubernetesGatewayName)

/-- An HTTP route in the fixture gateway's namespace with an All gateway
policy, matched by both fixture listeners, used as a concrete fixture. -/
def dupMatchRoute : Config RouteSpec RouteStatus :=
  let gws : RouteGateways := { allow := "All", gatewayRefs := [] }
  { meta := plainMeta "r10" "default"
    spec := RouteSpec.http { gateways := gws, hostnames := [], rules := [] }
    status := { gateways := [] } }

/-- The istio gateway config that processGateway emits for one admitted
gateway (proved equal to the first component of processGateway below). -/
def builtGatewayConfig (domain : String) (obj : Config GatewaySpec GatewayStatus) :
    Config IstioGatewaySpec Unit :=
  let name := obj.meta.name ++ "-" ++ kubernetesGatewayName
  let meta : Meta :=
    { gvk := gvkGateway
      name := name
      ns := obj.meta.ns
      labels := []
      generation := 0
      creationTimestamp := obj.meta.creationTimestamp
      domain := domain }
  let spec : IstioGatewaySpec :=
    { servers := obj.spec.listeners.map (buildServer obj)
      selector := [("istio", "ingressgateway")] }
  { meta := meta, spec := spec, status := () }

/-- A snapshot with the fixture class, the two-listener gateway, and one
HTTP route matched by both listeners, used as a concrete fixture. -/
def dupMatchSnapshot : KubernetesResources :=
  { gatewayClass := [sampleGatewayClass], gateway := [sampleGateway]
    httpRoute := [dupMatchRoute], tcpRoute := [], tlsRoute := []
    backendPolicy := [], namespaces := [], domain := "cluster.local" }

theorem foldl_add_init (l : List Int) (b : Int) :
    l.foldl (fun r i => r + i) b = b + l.foldl (fun r i => r + i) 0 := by
  induction l generalizing b with
  | nil => simp
  | cons a l ih =>
    simp only [List.foldl_cons]
    rw [ih (b + a), ih (0 + a)]
    ring

theorem intSum_nil : intSum [] = 0 := rfl

theorem intSum_cons (a : Int) (l : List Int) : intSum (a :: l) = a + intSum l := by
  simp only [intSum, List.foldl_cons]
  rw [foldl_add_init l (0 + a)]
  ring

theorem intSum_nonneg (l : List Int) (h : ∀ w ∈ l, 0 ≤ w) : 0 ≤ intSum l := by
  induction l with
  | nil => simp [intSum_nil]
  | cons a l ih =>
    rw [intSum_cons]
    have ha := h a (List.mem_cons_self a l)
    have := ih (fun w hw => h w (List.mem_cons_of_mem a hw))
    omega

theorem intSum_pos (l : List Int) (hnn : ∀ w ∈ l, 0 ≤ w) (hpos : ∃ w ∈ l, 0 < w) :
    0 < intSum l := by
  induction l with
  | nil => simp at hpos
  | cons a l ih =>
    rw [intSum_cons]
    rcases hpos with ⟨w, hw, hwpos⟩
    rcases List.mem_cons.mp hw with h | h
    · have := intSum_nonneg l (fun w hw => hnn w (List.mem_cons_of_mem a hw))
      omega
    · have ha := hnn a (List.mem_cons_self a l)
      have := ih (fun w hw => hnn w (List.mem_cons_of_mem a hw)) ⟨w, h, hwpos⟩
      omega

theorem intSum_eq_zero (l : List Int) (hz : ∀ w ∈ l, w = 0) : intSum l = 0 := by
  induction l with
  | nil => rfl
  | cons a l ih =>
    rw [intSum_cons, hz a (List.mem_cons_self a l),
      ih (fun w hw => hz w (List.mem_cons_of_mem a hw))]
    ring

theorem intSum_replicate (n : Nat) (c : Int) :
    intSum (List.replicate n c) = n * c := by
  induction n with
  | zero => simp [intSum_nil]
  | succ n ih =>
    rw [List.replicate_succ, intSum_cons, ih]
    push_cast
    ring

theorem incrAt_length (l : List Int) (i : Nat) : (incrAt l i).length = l.length := by
  induction l generalizing i with
  | nil => rfl
  | cons x xs ih =>
    cases i with
    | zero => rfl
    | succ n => simp [incrAt, ih]

theorem intSum_incrAt (l : List Int) (i : Nat) (h : i < l.length) :
    intSum (incrAt l i) = intSum l + 1 := by
  induction l generalizing i with
  | nil => simp at h
  | cons x xs ih =>
    cases i with
    | zero => simp [incrAt, intSum_cons]; ring
    | succ n =>
      simp only [incrAt, intSum_cons]
      rw [ih n (by simpa using h)]
      ring

theorem length_distributeRemainder (results : List Int) (order : List Nat) (rem : Int) :
    (distributeRemainder results order rem).length = results.length := by
  induction order generalizing results rem with
  | nil => rfl
  | cons idx rest ih =>
    simp only [distributeRemainder]
    split
    · rfl
    · rw [ih, incrAt_length]

theorem intSum_distributeRemainder (results : List Int) (order : List Nat) (rem : Int)
    (h0 : 0 ≤ rem) (hle : rem ≤ (order.length : Int))
    (hmem : ∀ i ∈ order, i < results.length) :
    intSum (distributeRemainder results order rem) = intSum results + rem := by
  induction order generalizing results rem with
  | nil =>
    simp only [distributeRemainder, List.length_nil] at *
    omega
  | cons idx rest ih =>
    simp only [distributeRemainder]
    split
    · omega
    · rename_i hrem
      rw [ih (incrAt results idx) (rem - 1) (by omega)
          (by simp only [List.length_cons] at hle; push_cast at hle ⊢; omega)
          (fun i hi => by rw [incrAt_length]; exact hmem i (List.mem_cons_of_mem idx hi))]
      rw [intSum_incrAt results idx (hmem idx (List.mem_cons_self idx rest))]
      ring

theorem insertDesc_perm (x : Nat × ℚ) (l : List (Nat × ℚ)) :
    (insertDesc x l).Perm (x :: l) := by
  induction l with
  | nil => rfl
  | cons y ys ih =>
    simp only [insertDesc]
    split
    · exact ((ih.cons y).trans (List.Perm.swap x y ys))
    · rfl

theorem sortDesc_perm (l : List (Nat × ℚ)) : (sortDesc l).Perm l := by
  induction l with
  | nil => rfl
  | cons x xs ih =>
    exact (insertDesc_perm x (sortDesc xs)).trans (ih.cons x)

theorem argsort_perm (n : List ℚ) : (argsort n).Perm (List.range n.length) := by
  have h1 : ((sortDesc ((List.range n.length).zip n)).map Prod.fst).Perm
      (((List.range n.length).zip n).map Prod.fst) :=
    (sortDesc_perm _).map Prod.fst
  rw [List.map_fst_zip _ _ (by simp)] at h1
  exact h1

theorem argsort_length (n : List ℚ) : (argsort n).length = n.length := by
  have := (argsort_perm n).length_eq
  simpa using this

theorem argsort_mem (n : List ℚ) (i : Nat) (h : i ∈ argsort n) : i < n.length := by
  have := (argsort_perm n).mem_iff.mp h
  simpa using this

theorem argsort_nodup (n : List ℚ) : (argsort n).Nodup :=
  ((argsort_perm n).nodup_iff).mpr (List.nodup_range _)

theorem incrAt_oob (l : List Int) (i : Nat) (h : l.length ≤ i) : incrAt l i = l := by
  induction l generalizing i with
  | nil => rfl
  | cons x xs ih =>
    cases i with
    | zero => simp at h
    | succ n => simp only [incrAt, List.cons.injEq, true_and]; exact ih n (by simpa using h)

theorem incrAt_getD_ne (l : List Int) (i j : Nat) (d : Int) (h : j ≠ i) :
    (incrAt l i).getD j d = l.getD j d := by
  induction l generalizing i j with
  | nil => rfl
  | cons x xs ih =>
    cases i with
    | zero =>
      cases j with
      | zero => exact absurd rfl h
      | succ m => simp [incrAt]
    | succ n =>
      cases j with
      | zero => simp [incrAt]
      | succ m => simpa [incrAt] using ih n m (by omega)

theorem incrAt_getD_self (l : List Int) (i : Nat) (d : Int) (h : i < l.length) :
    (incrAt l i).getD i d = l.getD i d + 1 := by
  induction l generalizing i with
  | nil => simp at h
  | cons x xs ih =>
    cases i with
    | zero => simp [incrAt]
    | succ n => simpa [incrAt] using ih n (by simpa using h)

theorem distributeRemainder_getD_not_mem (results : List Int) (order : List Nat)
    (rem : Int) (j : Nat) (d : Int) (hj : j ∉ order) :
    (distributeRemainder results order rem).getD j d = results.getD j d := by
  induction order generalizing results rem with
  | nil => rfl
  | cons idx rest ih =>
    simp only [distributeRemainder]
    split
    · rfl
    · rw [ih (incrAt results idx) (rem - 1) (fun h => hj (List.mem_cons_of_mem idx h))]
      exact incrAt_getD_ne results idx j d (fun h => hj (h ▸ List.mem_cons_self idx rest))

theorem distributeRemainder_getD (results : List Int) (order : List Nat) (rem : Int)
    (hnd : order.Nodup) (j : Nat) :
    (distributeRemainder results order rem).getD j 0 = results.getD j 0 ∨
    (distributeRemainder results order rem).getD j 0 = results.getD j 0 + 1 := by
  induction order generalizing results rem with
  | nil => exact Or.inl rfl
  | cons idx rest ih =>
    obtain ⟨hni, hnd2⟩ := List.nodup_cons.mp hnd
    simp only [distributeRemainder]
    split
    · exact Or.inl rfl
    · by_cases hj : j = idx
      · subst hj
        rw [distributeRemainder_getD_not_mem _ _ _ _ _ hni]
        by_cases hlt : j < results.length
        · exact Or.inr (incrAt_getD_self results j 0 hlt)
        · rw [incrAt_oob results j (by omega)]
          exact Or.inl rfl
      · rcases ih (incrAt results idx) (rem - 1) hnd2 with h | h <;>
          rw [incrAt_getD_ne results idx j 0 hj] at h
        · exact Or.inl h
        · exact Or.inr h

theorem sum_tdiv_bounds (l : List Int) (t : Int) (ht : 0 < t) (hnn : ∀ w ∈ l, 0 ≤ w) :
    t * intSum (l.map (fun w => Int.tdiv (100 * w) t)) ≤ 100 * intSum l ∧
    100 * intSum l ≤ t * intSum (l.map (fun w => Int.tdiv (100 * w) t)) + t * l.length := by
  induction l with
  | nil => simp [intSum_nil]
  | cons a l ih =>
    have ha := hnn a (List.mem_cons_self a l)
    obtain ⟨ih1, ih2⟩ := ih (fun w hw => hnn w (List.mem_cons_of_mem a hw))
    simp only [List.map_cons, intSum_cons, List.length_cons]
    have hdiv : Int.tdiv (100 * a) t = (100 * a) / t :=
      Int.tdiv_eq_ediv (by positivity) (le_of_lt ht)
    have heq : t * ((100 * a) / t) + (100 * a) % t = 100 * a := Int.ediv_add_emod _ _
    have hm0 : 0 ≤ (100 * a) % t := Int.emod_nonneg _ (by omega)
    have hmt : (100 * a) % t < t := Int.emod_lt_of_pos _ ht
    constructor
    · rw [hdiv, mul_add, mul_add]
      omega
    · rw [hdiv]
      push_cast
      rw [mul_add, mul_add, mul_add]
      omega

/-- C1: for at least two nonnegative weights with at least one positive,
the standardized output has the same length as the input and sums to
exactly 100. -/
theorem standardizeWeights_sum_100 (weights : List Int)
    (hlen : 2 ≤ weights.length)
    (hnn : ∀ w ∈ weights, 0 ≤ w)
    (hpos : ∃ w ∈ weights, 0 < w) :
    (standardizeWeights weights).length = weights.length ∧
    intSum (standardizeWeights weights) = 100 := by
  have htot : 0 < intSum weights := intSum_pos weights hnn hpos
  have hlen1 : (weights.length == 1) = false := by simp; omega
  have htot0 : (intSum weights == 0) = false := by simp; omega
  rw [standardizeWeights]
  simp only [hlen1, htot0, Bool.false_eq_true, if_false, List.map_map]
  have hcomp : (Prod.fst ∘ fun w =>
      ((Int.tdiv (100 * w) (intSum weights) : Int),
        Rat.divInt (100 * w - Int.tdiv (100 * w) (intSum weights) * intSum weights)
          (intSum weights))) = fun w => Int.tdiv (100 * w) (intSum weights) := rfl
  rw [hcomp]
  obtain ⟨hb1, hb2⟩ := sum_tdiv_bounds weights (intSum weights) htot hnn
  have hS1 : intSum (weights.map (fun w => Int.tdiv (100 * w) (intSum weights))) ≤ 100 := by
    have := mul_le_mul_left htot
      (b := intSum (weights.map (fun w => Int.tdiv (100 * w) (intSum weights)))) (c := 100)
    nlinarith
  have hS2 : 100 ≤ intSum (weights.map (fun w => Int.tdiv (100 * w) (intSum weights)))
      + weights.length := by
    nlinarith
  constructor
  · rw [length_distributeRemainder]
    simp
  · rw [intSum_distributeRemainder]
    · ring_nf
      omega
    · omega
    · rw [argsort_length]
      simp only [List.length_map]
      omega
    · intro i hi
      have := argsort_mem _ i hi
      simpa using this

/-- C1 witness: the weight list `[1, 3]` satisfies the hypotheses and is
standardized to a list of length 2 summing to 100. -/
theorem standardizeWeights_sum_100_witness :
    (∀ w ∈ ([1, 3] : List Int), 0 ≤ w) ∧
    ((standardizeWeights [1, 3]).length = ([1, 3] : List Int).length ∧
      intSum (standardizeWeights [1, 3]) = 100) :=
  ⟨by decide, standardizeWeights_sum_100 [1, 3] (by decide) (by decide) ⟨1, by decide, by decide⟩⟩

/-- C6: an all-zero weight list of length N ≥ 2 is standardized to a uniform
split: length N, total exactly 100, and every entry is either
`100 / N` (floored) or `100 / N + 1`. -/
theorem standardizeWeights_uniform (weights : List Int)
    (hlen : 2 ≤ weights.length)
    (hz : ∀ w ∈ weights, w = 0) :
    (standardizeWeights weights).length = weights.length ∧
    intSum (standardizeWeights weights) = 100 ∧
    ∀ x ∈ standardizeWeights weights,
      x = ((100 / weights.length : Nat) : Int) ∨
      x = ((100 / weights.length : Nat) : Int) + 1 := by
  have htotz : intSum weights = 0 := intSum_eq_zero weights hz
  have hlen1 : (weights.length == 1) = false := by simp; omega
  have htot0 : (intSum weights == 0) = true := by simp [htotz]
  rw [standardizeWeights]
  simp only [hlen1, htot0, Bool.false_eq_true, if_false, if_true, List.map_map]
  simp only [Function.comp_def, mul_one, List.map_const']
  have hn : 0 < weights.length := by omega
  have hc : (100 : Int).tdiv ((weights.length : Nat) : Int)
      = ((100 / weights.length : Nat) : Int) := by
    rw [Int.ofNat_tdiv]
    norm_num
  rw [hc]
  have hdm := Nat.div_add_mod 100 weights.length
  have hmod : 100 % weights.length < weights.length := Nat.mod_lt 100 hn
  set c : Int := ((100 / weights.length : Nat) : Int) with hcdef
  set rr : ℚ := Rat.divInt (100 - c * (weights.length : Int)) (weights.length : Int)
    with hrrdef
  set ord : List Nat := argsort (List.replicate weights.length rr) with horddef
  set rem : Int := 100 - intSum (List.replicate weights.length c) with hremdef
  have hrep : intSum (List.replicate weights.length c) = (weights.length : Int) * c :=
    intSum_replicate _ _
  have hordlen : ord.length = weights.length := by
    rw [horddef, argsort_length, List.length_replicate]
  have hordmem : ∀ i ∈ ord, i < (List.replicate weights.length c).length := by
    intro i hi
    rw [horddef] at hi
    have := argsort_mem _ i hi
    simpa using this
  have hordnd : ord.Nodup := by
    rw [horddef]
    exact argsort_nodup _
  have hrem0 : 0 ≤ rem := by
    rw [hremdef, hrep, hcdef]
    omega
  have hremle : rem ≤ (ord.length : Int) := by
    rw [hremdef, hrep, hcdef, hordlen]
    omega
  have hlenD : (distributeRemainder (List.replicate weights.length c) ord rem).length
      = weights.length := by
    rw [length_distributeRemainder, List.length_replicate]
  refine ⟨hlenD, ?_, ?_⟩
  · rw [intSum_distributeRemainder _ _ _ hrem0 hremle hordmem, hrep, hremdef, hrep]
    ring
  · intro x hx
    obtain ⟨k, hk, hxeq⟩ := List.mem_iff_getElem.mp hx
    have hkn : k < weights.length := by rw [hlenD] at hk; exact hk
    have hxg : x = (distributeRemainder (List.replicate weights.length c) ord rem).getD
        k 0 := by
      rw [List.getD_eq_getElem _ _ hk, hxeq]
    have hrepg : (List.replicate weights.length c).getD k 0 = c := by
      rw [List.getD_eq_getElem _ _ (by simpa using hkn)]
      exact List.getElem_replicate _ _
    rcases distributeRemainder_getD (List.replicate weights.length c) ord rem hordnd k
      with h | h
    · left
      rw [hxg, h, hrepg]
    · right
      rw [hxg, h, hrepg]

/-- C6 witness: the all-zero list `[0, 0, 0]` satisfies the hypotheses; its
standardization has length 3, sums to 100, and every entry is 33 or 34. -/
theorem standardizeWeights_uniform_witness :
    (∀ w ∈ ([0, 0, 0] : List Int), w = 0) ∧
    ((standardizeWeights [0, 0, 0]).length = ([0, 0, 0] : List Int).length ∧
      intSum (standardizeWeights [0, 0, 0]) = 100 ∧
      ∀ x ∈ standardizeWeights [0, 0, 0],
        x = ((100 / ([0, 0, 0] : List Int).length : Nat) : Int) ∨
        x = ((100 / ([0, 0, 0] : List Int).length : Nat) : Int) + 1) :=
  ⟨by decide, standardizeWeights_uniform [0, 0, 0] (by decide) (by decide)⟩

/-- C7: a single-element weight list is standardized to the single sentinel
zero, whatever the weight value. -/
theorem standardizeWeights_singleton (w : Int) : standardizeWeights [w] = [0] := rfl

/-- C9: on the empty list `standardizeWeights` is total and returns the empty
list; the all-zero fallback sets the divisor to the list length (0) but the
per-entry division map is vacuous, so no division by the zero total is ever
performed. -/
theorem standardizeWeights_nil : standardizeWeights [] = [] := rfl

theorem getD_map_enum {α β : Type} (l : List α) (f : Nat × α → β) (i : Nat)
    (d : β) (da : α) (h : i < l.length) :
    ((l.enum.map f).getD i d) = f (i, l.getD i da) := by
  rw [List.getD_eq_getElem _ _ (by simpa [List.enum_length] using h),
    List.getElem_map, List.getElem_enum, List.getD_eq_getElem _ _ h]

/-- C3 counterexample: a forwarding target whose reference kind is not
Service (a backendRef and no serviceName) still contributes a destination:
for one service-naming target and one backendRef-only target the emitted
destination list has two entries, not the one entry per service-naming
target that the claim predicts. -/
theorem buildHTTPDestination_keeps_backendRef :
    ¬ ((buildHTTPDestination [fwdSvc, fwdBackend] "default" "cluster.local").length
      = (([fwdSvc, fwdBackend] : List HTTPRouteForwardTo).filter
          (fun f => f.serviceName.isSome)).length) := by
  decide

/-- C3 amended: every forwarding target contributes exactly one destination
entry, whatever its reference kind: the destination lists are as long as the
forwarding lists, a service-naming target yields the fully qualified service
host, and a target naming no service (the unsupported backendRef shape)
yields a destination with an empty host — the error is only logged. -/
theorem buildDestination_per_target (action : List HTTPRouteForwardTo)
    (tcpAction : List RouteForwardTo) (ns domain : String) :
    (buildHTTPDestination action ns domain).length = action.length ∧
    (buildTCPDestination tcpAction ns domain).length = tcpAction.length ∧
    (∀ i, i < action.length →
      ((buildHTTPDestination action ns domain).getD i
          defaultHTTPRouteDestination).destination.host
        = (match (action.getD i defaultHTTPForward).serviceName with
           | some s => s ++ "." ++ ns ++ ".svc." ++ domain
           | none => "")) ∧
    (∀ i, i < tcpAction.length →
      ((buildTCPDestination tcpAction ns domain).getD i
          defaultRouteDestination).destination.host
        = (match (tcpAction.getD i defaultRouteForward).serviceName with
           | some s => s ++ "." ++ ns ++ ".svc." ++ domain
           | none => "")) := by
  refine ⟨?_, ?_, ?_, ?_⟩
  · cases action with
    | nil => rfl
    | cons a as => simp [buildHTTPDestination, List.enum_length]
  · cases tcpAction with
    | nil => rfl
    | cons a as => simp [buildTCPDestination, List.enum_length]
  · intro i hi
    cases action with
    | nil => simp at hi
    | cons a as =>
      simp only [buildHTTPDestination, List.isEmpty_cons, Bool.false_eq_true, if_false]
      rw [getD_map_enum _ _ _ _ defaultHTTPForward hi]
      rfl
  · intro i hi
    cases tcpAction with
    | nil => simp at hi
    | cons a as =>
      simp only [buildTCPDestination, List.isEmpty_cons, Bool.false_eq_true, if_false]
      rw [getD_map_enum _ _ _ _ defaultRouteForward hi]
      rfl

/-- C3 amended witness: at the two-target fixture, the destination list has
two entries, the first carrying the qualified service host and the second an
empty host. -/
theorem buildDestination_per_target_witness :
    (0 < ([fwdSvc, fwdBackend] : List HTTPRouteForwardTo).length ∧
      1 < ([fwdSvc, fwdBackend] : List HTTPRouteForwardTo).length) ∧
    ((buildHTTPDestination [fwdSvc, fwdBackend] "default" "cluster.local").getD 0
        defaultHTTPRouteDestination).destination.host = "a.default.svc.cluster.local" ∧
    ((buildHTTPDestination [fwdSvc, fwdBackend] "default" "cluster.local").getD 1
        defaultHTTPRouteDestination).destination.host = "" := by
  refine ⟨⟨by decide, by decide⟩, ?_, ?_⟩
  · have h := (buildDestination_per_target [fwdSvc, fwdBackend] [] "default"
      "cluster.local").2.2.1 0 (by decide)
    simpa [fwdSvc] using h
  · have h := (buildDestination_per_target [fwdSvc, fwdBackend] [] "default"
      "cluster.local").2.2.1 1 (by decide)
    simpa [fwdBackend] using h

/-- C5: a route carrying an explicit SameNamespace gateway policy never
matches a gateway in another namespace, whatever the label-selector and
namespace-selector clauses decide. -/
theorem isRouteMatch_sameNamespace (cfg : Config RouteSpec RouteStatus)
    (gateway : Meta) (routes : RouteBindingSelector)
    (namespaces : List (String × NamespaceMeta)) (gs : RouteGateways)
    (hsel : getGatewaySelectorFromSpec cfg.spec = some gs)
    (hallow : gs.allow = gatewayAllowSameNamespace)
    (hns : gateway.ns ≠ cfg.meta.ns) :
    isRouteMatch cfg gateway routes namespaces = false := by
  have hbeq : (gateway.ns == cfg.meta.ns) = false := by simp [hns]
  have hpass : routeGatewayAllowPass cfg gateway = false := by
    simp only [routeGatewayAllowPass, hsel, Option.getD_some, hallow, hbeq,
      gatewayAllowSameNamespace, gatewayAllowAll, gatewayAllowFromList]
    simp
  simp only [isRouteMatch, hpass]
  repeat' split
  all_goals simp_all

/-- C5 witness: the fixture route (explicit SameNamespace policy, namespace
ns-b) does not match the fixture gateway in namespace ns-a, although the
binding selector alone (default fields, match-everything selector) would
accept it. -/
theorem isRouteMatch_sameNamespace_witness :
    (getGatewaySelectorFromSpec sampleRouteCfgSameNs.spec
        = some { allow := "SameNamespace", gatewayRefs := [] } ∧
      sampleGatewayMeta.ns ≠ sampleRouteCfgSameNs.meta.ns) ∧
    isRouteMatch sampleRouteCfgSameNs sampleGatewayMeta sampleBindingSelector []
      = false :=
  ⟨⟨rfl, by decide⟩,
    isRouteMatch_sameNamespace sampleRouteCfgSameNs sampleGatewayMeta
      sampleBindingSelector [] { allow := "SameNamespace", gatewayRefs := [] }
      rfl rfl (by decide)⟩

theorem updateMap_apply (m : RouteMap) (k : RouteKey) (g : String) (k2 : RouteKey) :
    updateMap m k g k2 = if k2 = k then m k2 ++ [g] else m k2 := rfl

theorem foldl_updateMap_apply (keys : List RouteKey) (g : String) :
    ∀ (m : RouteMap) (k : RouteKey),
    (keys.foldl (fun acc k2 => updateMap acc k2 g) m) k
      = m k ++ List.replicate (keys.count k) g := by
  induction keys with
  | nil => intro m k; simp
  | cons k2 keys ih =>
    intro m k
    simp only [List.foldl_cons]
    rw [ih, List.count_cons, updateMap_apply]
    by_cases h : k = k2
    · simp only [h, if_pos rfl, beq_self_eq_true, if_pos]
      rw [List.append_assoc, List.singleton_append, ← List.replicate_succ]
    · have hb : ¬k2 = k := fun hh => h hh.symm
      simp [h, hb]

/-- C4: every HTTP route that carries a gateway reference named by the mesh
token appears in the route-ownership map of convertGateway with the mesh
token among its owning gateways — for every snapshot, in particular one
with no Gateway resource at all. -/
theorem convertGateway_mesh_route (r : KubernetesResources) (now : Nat)
    (cfg : Config RouteSpec RouteStatus) (gs : RouteGateways) (ref : GatewayReference)
    (hcfg : cfg ∈ r.httpRoute)
    (hsel : getGatewaySelectorFromSpec cfg.spec = some gs)
    (href : ref ∈ gs.gatewayRefs)
    (hname : ref.name = experimentalMeshGatewayName) :
    experimentalMeshGatewayName ∈ (convertGateway r now).2.1 (toRouteKey cfg) := by
  have hmem : toRouteKey cfg ∈ fetchMeshRoutes r := by
    unfold fetchMeshRoutes
    refine List.mem_flatMap.mpr ⟨cfg, hcfg, ?_⟩
    rw [hsel]
    have hne : gs.gatewayRefs.isEmpty = false := by
      cases h : gs.gatewayRefs with
      | nil => rw [h] at href; simp at href
      | cons a as => rfl
    simp only [hne, Bool.false_eq_true, if_false]
    exact List.mem_filterMap.mpr ⟨ref, href, by simp [hname]⟩
  show experimentalMeshGatewayName ∈
    ((fetchMeshRoutes r).foldl
      (fun acc k => updateMap acc k experimentalMeshGatewayName)
      (processGateways r now (getGatewayClasses r now).1 r.gateway emptyRouteMap).2.1)
      (toRouteKey cfg)
  rw [foldl_updateMap_apply]
  refine List.mem_append.mpr (Or.inr ?_)
  rw [List.mem_replicate]
  have hc : 0 < List.count (toRouteKey cfg) (fetchMeshRoutes r) :=
    List.count_pos_iff.mpr hmem
  exact ⟨by omega, rfl⟩

/-- C4 witness: in the fixture snapshot, which contains no Gateway resource,
the mesh-referencing route is owned by the mesh token. -/
theorem convertGateway_mesh_route_witness :
    sampleMeshSnapshot.gateway = [] ∧
    experimentalMeshGatewayName ∈
      (convertGateway sampleMeshSnapshot 0).2.1 (toRouteKey sampleMeshRoute) :=
  ⟨rfl,
    convertGateway_mesh_route sampleMeshSnapshot 0 sampleMeshRoute
      { allow := "FromList", gatewayRefs := [{ name := "mesh", ns := "default" }] }
      { name := "mesh", ns := "default" }
      (List.mem_singleton.mpr rfl) rfl (List.mem_singleton.mpr rfl) rfl⟩

theorem getD_set_ne {α : Type} (l : List α) (i j : Nat) (a d : α) (h : i ≠ j) :
    (l.set i a).getD j d = l.getD j d := by
  simp [List.getD_eq_getElem?_getD, List.getElem?_set_ne h]

theorem getD_set_self {α : Type} (l : List α) (i : Nat) (a d : α) (h : i < l.length) :
    (l.set i a).getD i d = a := by
  simp [List.getD_eq_getElem?_getD, List.getElem?_set_self h]

theorem processListeners_proj (r : KubernetesResources)
    (obj : Config GatewaySpec GatewayStatus) (qname : String) (now : Nat) :
    ∀ (ls : List Listener) (i : Nat) (gs : GatewayStatus) (servers : List Server)
      (m : RouteMap),
    processListeners r obj qname now ls i (gs, servers, m)
      = (listenersGS obj now ls i gs,
         servers ++ ls.map (buildServer obj),
         listenersMap r obj qname ls m) := by
  intro ls
  induction ls with
  | nil =>
    intro i gs servers m
    simp [processListeners, listenersGS, listenersMap]
  | cons l rest ih =>
    intro i gs servers m
    simp only [processListeners, listenersGS, listenersMap, List.map_cons]
    rw [ih]
    simp [List.append_assoc, buildServer]

theorem listenersGS_spec (obj : Config GatewaySpec GatewayStatus) (now : Nat) :
    ∀ (ls : List Listener) (i : Nat) (gs : GatewayStatus),
    (listenersGS obj now ls i gs).addresses = gs.addresses ∧
    (listenersGS obj now ls i gs).conditions = gs.conditions ∧
    (listenersGS obj now ls i gs).listeners.length = gs.listeners.length ∧
    (∀ j, j < i ∨ i + ls.length ≤ j →
      (listenersGS obj now ls i gs).listeners.getD j zeroListenerStatus
        = gs.listeners.getD j zeroListenerStatus) ∧
    (∀ j, i ≤ j → j < i + ls.length → j < gs.listeners.length →
      (listenersGS obj now ls i gs).listeners.getD j zeroListenerStatus
        = { port := (ls.getD (j - i) defaultListener).port
            protocol := (ls.getD (j - i) defaultListener).protocol
            hostname := (ls.getD (j - i) defaultListener).hostname
            conditions := conditionallyUpdateCondition
              (gs.listeners.getD j zeroListenerStatus).conditions
              (readyListenerCondition obj.meta.generation now) }) := by
  intro ls
  induction ls with
  | nil =>
    intro i gs
    refine ⟨rfl, rfl, rfl, fun j hj => rfl, fun j hj1 hj2 hj3 => ?_⟩
    simp only [List.length_nil] at hj2
    omega
  | cons l rest ih =>
    intro i gs
    simp only [listenersGS]
    obtain ⟨iha, ihc, ihl, ihout, ihin⟩ := ih (i + 1) { gs with listeners := gs.listeners.set i { port := l.port, protocol := l.protocol, hostname := l.hostname, conditions := conditionallyUpdateCondition (gs.listeners.getD i zeroListenerStatus).conditions (readyListenerCondition obj.meta.generation now) } }
    refine ⟨iha, ihc, by rw [ihl]; simp [List.length_set], ?_, ?_⟩
    · intro j hj
      have hj2 : j < i + 1 ∨ i + 1 + rest.length ≤ j := by
        rcases hj with h | h
        · exact Or.inl (by omega)
        · right
          simp only [List.length_cons] at h
          omega
      have hne : i ≠ j := by
        rcases hj with h | h
        · omega
        · simp only [List.length_cons] at h
          omega
      rw [ihout j hj2]
      exact getD_set_ne _ _ _ _ _ hne
    · intro j hj1 hj2 hj3
      simp only [List.length_cons] at hj2
      by_cases hji : j = i
      · subst hji
        rw [ihout j (Or.inl (by omega))]
        rw [getD_set_self _ _ _ _ hj3]
        simp
      · have hlt : i + 1 ≤ j := by omega
        rw [ihin j hlt (by omega) (by simpa using hj3)]
        rw [getD_set_ne _ _ _ _ _ (by omega)]
        have hidx : j - i = (j - (i + 1)) + 1 := by omega
        rw [hidx, List.getD_cons_succ]

theorem processGateway_status (r : KubernetesResources) (now : Nat)
    (classes : List String) (obj : Config GatewaySpec GatewayStatus) (m : RouteMap) :
    (processGateway r now classes obj m).2.2 = gatewayStatusAfter r now classes obj := by
  unfold processGateway gatewayStatusAfter
  split
  · rfl
  · simp only [processListeners_proj]

theorem processGateways_statuses (r : KubernetesResources) (now : Nat)
    (classes : List String) :
    ∀ (gws : List (Config GatewaySpec GatewayStatus)) (m : RouteMap),
    (processGateways r now classes gws m).2.2
      = gws.map (gatewayStatusAfter r now classes) := by
  intro gws
  induction gws with
  | nil => intro m; rfl
  | cons obj rest ih =>
    intro m
    simp only [processGateways, List.map_cons]
    rw [ih, processGateway_status]

/-- C8: for every admitted gateway, the listener-status sequence left by
convertGateway has exactly the length of the spec's listener sequence, and
its j-th entry reports the j-th listener's port, protocol, and hostname —
whatever the length of the pre-existing status sequence was (a mismatched
sequence is reset and rebuilt rather than failing). -/
theorem convertGateway_listener_status (r : KubernetesResources) (now : Nat)
    (i : Nat) (hi : i < r.gateway.length)
    (hadm : ((getGatewayClasses r now).1.contains
        ((r.gateway.getD i defaultGatewayConfig).spec.gatewayClassName)) = true) :
    (((convertGateway r now).2.2.2.getD i defaultGatewayStatus).listeners.length
      = (r.gateway.getD i defaultGatewayConfig).spec.listeners.length) ∧
    (∀ j, j < (r.gateway.getD i defaultGatewayConfig).spec.listeners.length →
      (((convertGateway r now).2.2.2.getD i defaultGatewayStatus).listeners.getD j
          zeroListenerStatus).port
        = ((r.gateway.getD i defaultGatewayConfig).spec.listeners.getD j
            defaultListener).port ∧
      (((convertGateway r now).2.2.2.getD i defaultGatewayStatus).listeners.getD j
          zeroListenerStatus).protocol
        = ((r.gateway.getD i defaultGatewayConfig).spec.listeners.getD j
            defaultListener).protocol ∧
      (((convertGateway r now).2.2.2.getD i defaultGatewayStatus).listeners.getD j
          zeroListenerStatus).hostname
        = ((r.gateway.getD i defaultGatewayConfig).spec.listeners.getD j
            defaultListener).hostname) := by
  have hst : (convertGateway r now).2.2.2
      = r.gateway.map (gatewayStatusAfter r now (getGatewayClasses r now).1) := by
    show (processGateways r now (getGatewayClasses r now).1 r.gateway emptyRouteMap).2.2
      = _
    rw [processGateways_statuses]
  have hgetD : (convertGateway r now).2.2.2.getD i defaultGatewayStatus
      = gatewayStatusAfter r now (getGatewayClasses r now).1
          (r.gateway.getD i defaultGatewayConfig) := by
    rw [hst, List.getD_eq_getElem _ _ (by simpa using hi), List.getElem_map,
      List.getD_eq_getElem _ _ hi]
  rw [hgetD]
  set obj := r.gateway.getD i defaultGatewayConfig with hobj
  unfold gatewayStatusAfter
  rw [hadm]
  simp only [Bool.not_true, Bool.false_eq_true, if_false]
  set rl : List ListenerStatus := (if obj.status.listeners.length ≠ obj.spec.listeners.length then List.replicate obj.spec.listeners.length zeroListenerStatus else obj.status.listeners) with hrl
  have hlen0 : rl.length = obj.spec.listeners.length := by
    rw [hrl]
    split
    · simp
    · omega
  obtain ⟨ha2, hc2, hl2, hout2, hin2⟩ := listenersGS_spec obj now obj.spec.listeners 0 { obj.status with addresses := [], listeners := rl }
  constructor
  · rw [hl2]
    exact hlen0
  · intro j hj
    rw [hin2 j (by omega) (by omega) (by show j < rl.length; omega)]
    simp

/-- C8 witness: the fixture gateway declares two listeners but its
pre-existing status sequence has length 1; after conversion the status
sequence has length 2 and its first entry reports port 80. -/
theorem convertGateway_listener_status_witness :
    (0 < sampleGatewaySnapshot.gateway.length ∧
      sampleGateway.status.listeners.length ≠ sampleGateway.spec.listeners.length ∧
      ((getGatewayClasses sampleGatewaySnapshot 5).1.contains
        ((sampleGatewaySnapshot.gateway.getD 0
          defaultGatewayConfig).spec.gatewayClassName)) = true) ∧
    ((convertGateway sampleGatewaySnapshot 5).2.2.2.getD 0
        defaultGatewayStatus).listeners.length
      = (sampleGatewaySnapshot.gateway.getD 0
          defaultGatewayConfig).spec.listeners.length ∧
    (((convertGateway sampleGatewaySnapshot 5).2.2.2.getD 0
        defaultGatewayStatus).listeners.getD 0 zeroListenerStatus).port
      = ((sampleGatewaySnapshot.gateway.getD 0
          defaultGatewayConfig).spec.listeners.getD 0 defaultListener).port :=
  ⟨⟨by decide, by decide, by decide⟩,
    (convertGateway_listener_status sampleGatewaySnapshot 5 0 (by decide) (by decide)).1,
    ((convertGateway_listener_status sampleGatewaySnapshot 5 0 (by decide)
      (by decide)).2 0 (by decide)).1⟩

theorem addRoutesToMap_apply (qname : String) :
    ∀ (routes : List (Config RouteSpec RouteStatus)) (m : RouteMap) (k : RouteKey),
    addRoutesToMap m qname routes k
      = m k ++ List.replicate (routes.countP (fun rt => toRouteKey rt == k)) qname := by
  intro routes
  induction routes with
  | nil => intro m k; simp [addRoutesToMap]
  | cons rt rts ih =>
    intro m k
    show addRoutesToMap (updateMap m (toRouteKey rt) qname) qname rts k = _
    rw [ih, updateMap_apply, List.countP_cons]
    by_cases h : toRouteKey rt = k
    · subst h
      simp [List.append_assoc, List.replicate_succ]
    · have hb : (toRouteKey rt == k) = false := beq_eq_false_iff_ne.mpr h
      have hk : ¬k = toRouteKey rt := fun hh => h hh.symm
      simp [hb, hk]

theorem listenersMap_apply (r : KubernetesResources)
    (obj : Config GatewaySpec GatewayStatus) (qname : String) :
    ∀ (ls : List Listener) (m : RouteMap) (k : RouteKey),
    listenersMap r obj qname ls m k
      = m k ++ List.replicate
          ((ls.map (fun l => listenerMatchCount r obj l k)).sum) qname := by
  intro ls
  induction ls with
  | nil => intro m k; simp [listenersMap]
  | cons l rest ih =>
    intro m k
    simp only [listenersMap]
    rw [ih, addRoutesToMap_apply, addRoutesToMap_apply, addRoutesToMap_apply]
    simp only [List.map_cons, List.sum_cons, listenerMatchCount, List.append_assoc,
      ← List.replicate_add]

theorem processGateway_map (r : KubernetesResources) (now : Nat)
    (classes : List String) (obj : Config GatewaySpec GatewayStatus)
    (m : RouteMap) (k : RouteKey) :
    (processGateway r now classes obj m).2.1 k
      = m k ++ (if classes.contains obj.spec.gatewayClassName
          then List.replicate
            ((obj.spec.listeners.map (fun l => listenerMatchCount r obj l k)).sum)
            (gatewayQualifiedName obj)
          else []) := by
  unfold processGateway
  split
  · rename_i h
    have hc : classes.contains obj.spec.gatewayClassName = false := by
      simpa using h
    rw [hc]
    simp
  · rename_i h
    have hc : classes.contains obj.spec.gatewayClassName = true := by
      simpa using h
    rw [hc]
    simp only [processListeners_proj, if_true]
    rw [listenersMap_apply]
    rfl

theorem processGateways_map (r : KubernetesResources) (now : Nat)
    (classes : List String) :
    ∀ (gws : List (Config GatewaySpec GatewayStatus)) (m : RouteMap) (k : RouteKey),
    (processGateways r now classes gws m).2.1 k
      = m k ++ gws.flatMap (fun obj =>
          if classes.contains obj.spec.gatewayClassName
          then List.replicate
            ((obj.spec.listeners.map (fun l => listenerMatchCount r obj l k)).sum)
            (gatewayQualifiedName obj)
          else []) := by
  intro gws
  induction gws with
  | nil => intro m k; simp [processGateways]
  | cons obj rest ih =>
    intro m k
    show (processGateways r now classes rest (processGateway r now classes obj m).2.1).2.1 k = _
    rw [ih, processGateway_map, List.flatMap_cons, List.append_assoc]

theorem convertGateway_map (r : KubernetesResources) (now : Nat) (k : RouteKey) :
    (convertGateway r now).2.1 k
      = r.gateway.flatMap (fun obj =>
          if (getGatewayClasses r now).1.contains obj.spec.gatewayClassName
          then List.replicate
            ((obj.spec.listeners.map (fun l => listenerMatchCount r obj l k)).sum)
            (gatewayQualifiedName obj)
          else [])
        ++ List.replicate ((fetchMeshRoutes r).count k) experimentalMeshGatewayName := by
  show ((fetchMeshRoutes r).foldl
      (fun acc k2 => updateMap acc k2 experimentalMeshGatewayName)
      (processGateways r now (getGatewayClasses r now).1 r.gateway emptyRouteMap).2.1) k
    = _
  rw [foldl_updateMap_apply, processGateways_map]
  rfl

theorem sum_if_eq_countP {α : Type} (p : α → Bool) :
    ∀ (l : List α), (l.map (fun x => if p x then 1 else 0)).sum = l.countP p := by
  intro l
  induction l with
  | nil => rfl
  | cons a l ih =>
    simp only [List.map_cons, List.sum_cons, List.countP_cons, ih]
    omega

theorem countP_and_of_unique {α : Type} (p q : α → Bool) (a : α) :
    ∀ (l : List α), a ∈ l → l.countP p = 1 → p a = true →
    l.countP (fun x => p x && q x) = if q a then 1 else 0 := by
  intro l
  induction l with
  | nil => intro ha; simp at ha
  | cons b bs ih =>
    intro ha huniq hpa
    rw [List.countP_cons] at huniq ⊢
    by_cases hpb : p b = true
    · rw [if_pos hpb] at huniq
      have hz : bs.countP p = 0 := by omega
      have hab : a = b := by
        rcases List.mem_cons.mp ha with h | h
        · exact h
        · exfalso
          have hpos : 0 < bs.countP p := List.countP_pos_iff.mpr ⟨a, h, hpa⟩
          omega
      have hz2 : bs.countP (fun x => p x && q x) = 0 := by
        have hle := List.countP_mono_left
          (p := fun x => p x && q x) (q := p) (l := bs)
          (fun x _ hx => by
            have hx2 := hx
            simp only [Bool.and_eq_true] at hx2
            exact hx2.1)
        omega
      subst hab
      rw [hz2, hpa]
      simp
    · have hpb2 : p b = false := by
        rcases Bool.eq_false_or_eq_true (p b) with h | h
        · exact absurd h hpb
        · exact h
      rw [if_neg hpb] at huniq
      have hab : a ∈ bs := by
        rcases List.mem_cons.mp ha with h | h
        · exfalso
          rw [← h, hpa] at hpb2
          simp at hpb2
        · exact h
      have huniq2 : bs.countP p = 1 := by omega
      rw [ih hab huniq2 hpa, hpb2]
      simp

theorem sum_single_of_unique {α : Type} (p : α → Bool) (F : α → Nat) (a : α) :
    ∀ (l : List α), a ∈ l → l.countP p = 1 → p a = true →
    (∀ x ∈ l, p x = false → F x = 0) →
    (l.map F).sum = F a := by
  intro l
  induction l with
  | nil => intro ha; simp at ha
  | cons b bs ih =>
    intro ha huniq hpa hzero
    rw [List.countP_cons] at huniq
    simp only [List.map_cons, List.sum_cons]
    by_cases hpb : p b = true
    · rw [if_pos hpb] at huniq
      have hz : bs.countP p = 0 := by omega
      have hab : a = b := by
        rcases List.mem_cons.mp ha with h | h
        · exact h
        · exfalso
          have hpos : 0 < bs.countP p := List.countP_pos_iff.mpr ⟨a, h, hpa⟩
          omega
      have hsz : (bs.map F).sum = 0 := by
        apply List.sum_eq_zero
        intro x hx
        obtain ⟨y, hy, hfy⟩ := List.mem_map.mp hx
        rw [← hfy]
        refine hzero y (List.mem_cons_of_mem b hy) ?_
        rcases Bool.eq_false_or_eq_true (p y) with h | h
        · exfalso
          have hpos : 0 < bs.countP p := List.countP_pos_iff.mpr ⟨y, hy, h⟩
          omega
        · exact h
      rw [hsz, hab]
      omega
    · have hpb2 : p b = false := by
        rcases Bool.eq_false_or_eq_true (p b) with h | h
        · exact absurd h hpb
        · exact h
      rw [if_neg hpb] at huniq
      have hab : a ∈ bs := by
        rcases List.mem_cons.mp ha with h | h
        · exfalso
          rw [← h, hpa] at hpb2
          simp at hpb2
        · exact h
      have huniq2 : bs.countP p = 1 := by omega
      rw [ih hab huniq2 hpa (fun x hx hfx => hzero x (List.mem_cons_of_mem b hx) hfx)]
      rw [hzero b (List.mem_cons_self b bs) hpb2]
      omega

theorem count_flatMap {α β : Type} [BEq β] (g : β) (f : α → List β) :
    ∀ (l : List α), (l.flatMap f).count g = (l.map (fun x => (f x).count g)).sum := by
  intro l
  induction l with
  | nil => rfl
  | cons a l ih =>
    rw [List.flatMap_cons, List.count_append, List.map_cons, List.sum_cons, ih]

/-- C10: for an admitted gateway whose namespace-qualified name is unique
in the snapshot and distinct from the mesh token, and an HTTP route whose key
is unique across the three route lists, the route's entry in the ownership map
produced by convertGateway contains the gateway's qualified name exactly once
per listener whose selector matches the route — occurrences are not
deduplicated; moreover the entry propagates verbatim (duplicates included) to
the gateway list of the virtual service built for the route, and one route
status entry is created per occurrence. -/
theorem convertGateway_ownership_count (r : KubernetesResources) (now : Nat)
    (obj : Config GatewaySpec GatewayStatus) (cfg : Config RouteSpec RouteStatus)
    (hmem : obj ∈ r.gateway)
    (hadm : (getGatewayClasses r now).1.contains obj.spec.gatewayClassName = true)
    (huniq : r.gateway.countP
      (fun g => gatewayQualifiedName g == gatewayQualifiedName obj) = 1)
    (hnm : gatewayQualifiedName obj ≠ experimentalMeshGatewayName)
    (hhttp : cfg ∈ r.httpRoute)
    (hkey : r.httpRoute.countP (fun rt => toRouteKey rt == toRouteKey cfg) = 1)
    (htcp : r.tcpRoute.countP (fun rt => toRouteKey rt == toRouteKey cfg) = 0)
    (htls : r.tlsRoute.countP (fun rt => toRouteKey rt == toRouteKey cfg) = 0) :
    ((convertGateway r now).2.1 (toRouteKey cfg)).count (gatewayQualifiedName obj)
      = obj.spec.listeners.countP
          (fun l => isRouteMatch cfg obj.meta l.routes r.namespaces)
    ∧ ((buildHTTPVirtualServices cfg ((convertGateway r now).2.1 (toRouteKey cfg))
          r.domain now).1.map (fun vs => vs.spec.gateways))
        = [(convertGateway r now).2.1 (toRouteKey cfg)]
    ∧ (buildHTTPVirtualServices cfg ((convertGateway r now).2.1 (toRouteKey cfg))
          r.domain now).2.gateways.length
        = ((convertGateway r now).2.1 (toRouteKey cfg)).length := by
  refine ⟨?_, ?_, ?_⟩
  · have hper : ∀ l : Listener,
        listenerMatchCount r obj l (toRouteKey cfg)
          = if isRouteMatch cfg obj.meta l.routes r.namespaces then 1 else 0 := by
      intro l
      have hH : (fetchHTTPRoutes r obj.meta l.routes).countP
          (fun rt => toRouteKey rt == toRouteKey cfg)
          = if isRouteMatch cfg obj.meta l.routes r.namespaces then 1 else 0 := by
        show (r.httpRoute.filter
          (fun http => isRouteMatch http obj.meta l.routes r.namespaces)).countP
          (fun rt => toRouteKey rt == toRouteKey cfg) = _
        rw [List.countP_filter]
        exact countP_and_of_unique (fun rt => toRouteKey rt == toRouteKey cfg)
          (fun rt => isRouteMatch rt obj.meta l.routes r.namespaces) cfg r.httpRoute
          hhttp hkey (by simp)
      have hT : (fetchTCPRoutes r obj.meta l.routes).countP
          (fun rt => toRouteKey rt == toRouteKey cfg) = 0 := by
        have hle : (fetchTCPRoutes r obj.meta l.routes).countP
            (fun rt => toRouteKey rt == toRouteKey cfg)
            ≤ r.tcpRoute.countP (fun rt => toRouteKey rt == toRouteKey cfg) := by
          show (r.tcpRoute.filter
            (fun tcp => isRouteMatch tcp obj.meta l.routes r.namespaces)).countP
            (fun rt => toRouteKey rt == toRouteKey cfg) ≤ _
          rw [List.countP_filter]
          exact List.countP_mono_left (fun x _ hx => by
            have hx2 := hx
            simp only [Bool.and_eq_true] at hx2
            exact hx2.1)
        omega
      have hL : (fetchTLSRoutes r obj.meta l.routes).countP
          (fun rt => toRouteKey rt == toRouteKey cfg) = 0 := by
        have hle : (fetchTLSRoutes r obj.meta l.routes).countP
            (fun rt => toRouteKey rt == toRouteKey cfg)
            ≤ r.tlsRoute.countP (fun rt => toRouteKey rt == toRouteKey cfg) := by
          show (r.tlsRoute.filter
            (fun tls => isRouteMatch tls obj.meta l.routes r.namespaces)).countP
            (fun rt => toRouteKey rt == toRouteKey cfg) ≤ _
          rw [List.countP_filter]
          exact List.countP_mono_left (fun x _ hx => by
            have hx2 := hx
            simp only [Bool.and_eq_true] at hx2
            exact hx2.1)
        omega
      simp only [listenerMatchCount, hH, hT, hL, Nat.add_zero]
    have hfun : (fun l => listenerMatchCount r obj l (toRouteKey cfg))
        = (fun l => if isRouteMatch cfg obj.meta l.routes r.namespaces
            then 1 else 0) := funext hper
    have hz : ∀ x ∈ r.gateway,
        (gatewayQualifiedName x == gatewayQualifiedName obj) = false →
        (if (getGatewayClasses r now).1.contains x.spec.gatewayClassName
         then List.replicate
           ((x.spec.listeners.map
             (fun l => listenerMatchCount r x l (toRouteKey cfg))).sum)
           (gatewayQualifiedName x)
         else []).count (gatewayQualifiedName obj) = 0 := by
      intro x _ hpx
      split
      · rw [List.count_replicate, hpx]
        rfl
      · rfl
    rw [convertGateway_map, List.count_append, count_flatMap]
    have hmesh : (List.replicate ((fetchMeshRoutes r).count (toRouteKey cfg))
        experimentalMeshGatewayName).count (gatewayQualifiedName obj) = 0 := by
      rw [List.count_replicate]
      have hb : (experimentalMeshGatewayName == gatewayQualifiedName obj) = false :=
        beq_eq_false_iff_ne.mpr (fun hh => hnm hh.symm)
      rw [hb]
      rfl
    rw [hmesh, Nat.add_zero]
    rw [sum_single_of_unique
      (fun g => gatewayQualifiedName g == gatewayQualifiedName obj)
      (fun x => (if (getGatewayClasses r now).1.contains x.spec.gatewayClassName
         then List.replicate
           ((x.spec.listeners.map
             (fun l => listenerMatchCount r x l (toRouteKey cfg))).sum)
           (gatewayQualifiedName x)
         else []).count (gatewayQualifiedName obj))
      obj r.gateway hmem huniq (by simp) hz]
    rw [if_pos hadm, List.count_replicate, if_pos (beq_self_eq_true _), hfun,
      sum_if_eq_countP]
  · rfl
  · show (createRouteStatus ((convertGateway r now).2.1 (toRouteKey cfg)) cfg
      now).length = _
    simp [createRouteStatus]

/-- A concrete application of the ownership count: the fixture route is
matched by both listeners of the fixture gateway, so its ownership entry
lists the gateway twice. -/
theorem convertGateway_ownership_count_witness :
    sampleGateway.spec.listeners.countP
        (fun l => isRouteMatch dupMatchRoute sampleGateway.meta l.routes
          dupMatchSnapshot.namespaces) = 2
    ∧ (((convertGateway dupMatchSnapshot 0).2.1 (toRouteKey dupMatchRoute)).count
          (gatewayQualifiedName sampleGateway)
        = sampleGateway.spec.listeners.countP
            (fun l => isRouteMatch dupMatchRoute sampleGateway.meta l.routes
              dupMatchSnapshot.namespaces)
      ∧ ((buildHTTPVirtualServices dupMatchRoute
            ((convertGateway dupMatchSnapshot 0).2.1 (toRouteKey dupMatchRoute))
            dupMatchSnapshot.domain 0).1.map (fun vs => vs.spec.gateways))
          = [(convertGateway dupMatchSnapshot 0).2.1 (toRouteKey dupMatchRoute)]
      ∧ (buildHTTPVirtualServices dupMatchRoute
            ((convertGateway dupMatchSnapshot 0).2.1 (toRouteKey dupMatchRoute))
            dupMatchSnapshot.domain 0).2.gateways.length
          = ((convertGateway dupMatchSnapshot 0).2.1
              (toRouteKey dupMatchRoute)).length) :=
  ⟨by decide,
   convertGateway_ownership_count dupMatchSnapshot 0 sampleGateway dupMatchRoute
     (by decide) (by decide) (by decide) (by decide) (by decide) (by decide)
     (by decide) (by decide)⟩

theorem contentDiffers_self (a : Condition) : conditionContentDiffers a a = false := by
  simp [conditionContentDiffers]

theorem contentDiffers_trans (a b c : Condition)
    (h1 : conditionContentDiffers a b = false)
    (h2 : conditionContentDiffers b c = false) :
    conditionContentDiffers a c = false := by
  simp only [conditionContentDiffers, Bool.or_eq_false_iff, bne_eq_false_iff_eq]
    at h1 h2 ⊢
  obtain ⟨⟨⟨hs1, hr1⟩, hm1⟩, hg1⟩ := h1
  obtain ⟨⟨⟨hs2, hr2⟩, hm2⟩, hg2⟩ := h2
  exact ⟨⟨⟨hs1.trans hs2, hr1.trans hr2⟩, hm1.trans hm2⟩, hg1.trans hg2⟩

theorem CUC_any_est (l : List Condition) (c : Condition) :
    (conditionallyUpdateCondition l c).any (fun e => e.type == c.type) = true := by
  unfold conditionallyUpdateCondition
  split
  · rename_i h
    rw [List.any_map]
    obtain ⟨e, he, hee⟩ := List.any_eq_true.mp h
    refine List.any_eq_true.mpr ⟨e, he, ?_⟩
    simp only [Function.comp_def]
    rw [if_pos hee]
    split
    · simp
    · exact hee
  · simp

theorem CUC_all_est (l : List Condition) (c : Condition) :
    ∀ e ∈ conditionallyUpdateCondition l c, e.type = c.type →
      conditionContentDiffers e c = false := by
  unfold conditionallyUpdateCondition
  split
  · intro e he ht
    obtain ⟨x, hx, hfx⟩ := List.mem_map.mp he
    by_cases hxc : (x.type == c.type) = true
    · rw [if_pos hxc] at hfx
      by_cases hd : conditionContentDiffers x c = true
      · rw [if_pos hd] at hfx
        rw [← hfx]
        exact contentDiffers_self c
      · have hd2 : conditionContentDiffers x c = false := by
          rcases Bool.eq_false_or_eq_true (conditionContentDiffers x c) with h | h
          · exact absurd h hd
          · exact h
        rw [if_neg hd] at hfx
        rw [← hfx]
        exact hd2
    · rw [if_neg hxc] at hfx
      subst hfx
      exact absurd (beq_iff_eq.mpr ht) hxc
  · rename_i hany
    intro e he ht
    rcases List.mem_append.mp he with h | h
    · exfalso
      have hf : l.any (fun e2 => e2.type == c.type) = false := by
        rcases Bool.eq_false_or_eq_true (l.any (fun e2 => e2.type == c.type))
          with h2 | h2
        · exact absurd h2 hany
        · exact h2
      exact (List.any_eq_false.mp hf e h) (beq_iff_eq.mpr ht)
    · rw [List.mem_singleton] at h
      rw [h]
      exact contentDiffers_self c

theorem CUC_any_mono (X : List Condition) (d : Condition) (T : String)
    (h : X.any (fun e => e.type == T) = true) :
    (conditionallyUpdateCondition X d).any (fun e => e.type == T) = true := by
  unfold conditionallyUpdateCondition
  split
  · rw [List.any_map]
    obtain ⟨e, he, hee⟩ := List.any_eq_true.mp h
    refine List.any_eq_true.mpr ⟨e, he, ?_⟩
    simp only [Function.comp_def]
    by_cases hed : (e.type == d.type) = true
    · rw [if_pos hed]
      have hdt : d.type = e.type := (beq_iff_eq.mp hed).symm
      split
      · rw [hdt]
        exact hee
      · exact hee
    · rw [if_neg hed]
      exact hee
  · simp only [List.any_append, h, Bool.true_or]

theorem CUC_all_mono (X : List Condition) (d c2 : Condition) (T : String)
    (hne : T ≠ d.type)
    (hall : ∀ e ∈ X, e.type = T → conditionContentDiffers e c2 = false) :
    ∀ e ∈ conditionallyUpdateCondition X d, e.type = T →
      conditionContentDiffers e c2 = false := by
  unfold conditionallyUpdateCondition
  split
  · intro e he ht
    obtain ⟨x, hx, hfx⟩ := List.mem_map.mp he
    by_cases hxd : (x.type == d.type) = true
    · rw [if_pos hxd] at hfx
      split at hfx
      · subst hfx
        exact absurd ht.symm hne
      · subst hfx
        exact hall x hx ht
    · rw [if_neg hxd] at hfx
      subst hfx
      exact hall x hx ht
  · intro e he ht
    rcases List.mem_append.mp he with h | h
    · exact hall e h ht
    · rw [List.mem_singleton] at h
      subst h
      exact absurd ht.symm hne

theorem CUC_eq_self (l : List Condition) (c : Condition)
    (hex : l.any (fun e => e.type == c.type) = true)
    (hall : ∀ e ∈ l, e.type = c.type → conditionContentDiffers e c = false) :
    conditionallyUpdateCondition l c = l := by
  unfold conditionallyUpdateCondition
  rw [if_pos hex]
  have h : ∀ e ∈ l,
      (if e.type == c.type
        then (if conditionContentDiffers e c then c else e) else e) = e := by
    intro e he
    by_cases hec : (e.type == c.type) = true
    · rw [if_pos hec]
      rw [hall e he (beq_iff_eq.mp hec)]
      simp
    · rw [if_neg hec]
  exact (List.map_congr_left h).trans (List.map_id l)

theorem CUC_stable (l : List Condition) (c1 c2 : Condition)
    (ht : c1.type = c2.type) (hc : conditionContentDiffers c1 c2 = false) :
    conditionallyUpdateCondition (conditionallyUpdateCondition l c1) c2
      = conditionallyUpdateCondition l c1 := by
  apply CUC_eq_self
  · have h := CUC_any_est l c1
    rw [ht] at h
    exact h
  · intro e he ht2
    exact contentDiffers_trans e c1 c2
      (CUC_all_est l c1 e he (ht2.trans ht.symm)) hc

theorem CUC_stable_two (l : List Condition) (c1 d1 c2 d2 : Condition)
    (htc : c1.type = c2.type) (hcc : conditionContentDiffers c1 c2 = false)
    (htd : d1.type = d2.type) (hcd : conditionContentDiffers d1 d2 = false)
    (hne : c2.type ≠ d1.type) :
    conditionallyUpdateCondition (conditionallyUpdateCondition
        (conditionallyUpdateCondition (conditionallyUpdateCondition l c1) d1) c2) d2
      = conditionallyUpdateCondition (conditionallyUpdateCondition l c1) d1 := by
  have h1 : conditionallyUpdateCondition (conditionallyUpdateCondition
      (conditionallyUpdateCondition l c1) d1) c2
      = conditionallyUpdateCondition (conditionallyUpdateCondition l c1) d1 := by
    apply CUC_eq_self
    · apply CUC_any_mono
      have h := CUC_any_est l c1
      rw [htc] at h
      exact h
    · apply CUC_all_mono
      · exact hne
      · intro e he ht2
        exact contentDiffers_trans e c1 c2
          (CUC_all_est l c1 e he (ht2.trans htc.symm)) hcc
  rw [h1]
  apply CUC_eq_self
  · have h := CUC_any_est (conditionallyUpdateCondition l c1) d1
    rw [htd] at h
    exact h
  · intro e he ht2
    exact contentDiffers_trans e d1 d2
      (CUC_all_est (conditionallyUpdateCondition l c1) d1 e he (ht2.trans htd.symm))
      hcd

theorem eq_of_getD {α : Type} (d : α) :
    ∀ (xs ys : List α), xs.length = ys.length →
    (∀ j, j < xs.length → xs.getD j d = ys.getD j d) → xs = ys := by
  intro xs ys hlen h
  apply List.ext_getElem hlen
  intro i h1 h2
  have hh := h i h1
  rwa [List.getD_eq_getElem _ _ h1, List.getD_eq_getElem _ _ h2] at hh

theorem gatewayStatus_eq (a b : GatewayStatus)
    (h1 : a.addresses = b.addresses) (h2 : a.listeners = b.listeners)
    (h3 : a.conditions = b.conditions) : a = b := by
  cases a
  cases b
  simp_all

theorem setStatuses_nil {σ τ : Type} :
    ∀ cs : List (Config σ τ), setStatuses cs ([] : List τ) = cs := by
  intro cs
  cases cs <;> rfl

theorem setStatuses_filterMap {σ τ β : Type} (f : Config σ τ → Option β)
    (h : ∀ (c : Config σ τ) (t : τ), f { c with status := t } = f c) :
    ∀ (cs : List (Config σ τ)) (ss : List τ),
    (setStatuses cs ss).filterMap f = cs.filterMap f := by
  intro cs
  induction cs with
  | nil => intro ss; cases ss <;> rfl
  | cons c cs ih =>
    intro ss
    cases ss with
    | nil => rw [setStatuses_nil]
    | cons s ss =>
      show List.filterMap f ({ c with status := s } :: setStatuses cs ss) = _
      rw [List.filterMap_cons, List.filterMap_cons, h c s, ih ss]

theorem setStatuses_flatMap {σ τ β : Type} (f : Config σ τ → List β)
    (h : ∀ (c : Config σ τ) (t : τ), f { c with status := t } = f c) :
    ∀ (cs : List (Config σ τ)) (ss : List τ),
    (setStatuses cs ss).flatMap f = cs.flatMap f := by
  intro cs
  induction cs with
  | nil => intro ss; cases ss <;> rfl
  | cons c cs ih =>
    intro ss
    cases ss with
    | nil => rw [setStatuses_nil]
    | cons s ss =>
      show (({ c with status := s } : Config σ τ) :: setStatuses cs ss).flatMap f = _
      rw [List.flatMap_cons, List.flatMap_cons, h c s, ih ss]

theorem setStatuses_countP {σ τ : Type} (p : Config σ τ → Bool)
    (h : ∀ (c : Config σ τ) (t : τ), p { c with status := t } = p c) :
    ∀ (cs : List (Config σ τ)) (ss : List τ),
    (setStatuses cs ss).countP p = cs.countP p := by
  intro cs
  induction cs with
  | nil => intro ss; cases ss <;> rfl
  | cons c cs ih =>
    intro ss
    cases ss with
    | nil => rw [setStatuses_nil]
    | cons s ss =>
      show List.countP p ({ c with status := s } :: setStatuses cs ss) = _
      rw [List.countP_cons, List.countP_cons, h c s, ih ss]

theorem setStatuses_filter_map {σ τ β : Type} (p : Config σ τ → Bool)
    (q : Config σ τ → β)
    (hp : ∀ (c : Config σ τ) (t : τ), p { c with status := t } = p c)
    (hq : ∀ (c : Config σ τ) (t : τ), q { c with status := t } = q c) :
    ∀ (cs : List (Config σ τ)) (ss : List τ),
    ((setStatuses cs ss).filter p).map q = (cs.filter p).map q := by
  intro cs
  induction cs with
  | nil => intro ss; cases ss <;> rfl
  | cons c cs ih =>
    intro ss
    cases ss with
    | nil => rw [setStatuses_nil]
    | cons s ss =>
      show ((({ c with status := s } : Config σ τ) :: setStatuses cs ss).filter p).map q
        = _
      rw [List.filter_cons, List.filter_cons, hp c s]
      by_cases hpc : p c = true
      · rw [if_pos hpc, if_pos hpc, List.map_cons, List.map_cons, hq c s, ih ss]
      · rw [if_neg hpc, if_neg hpc, ih ss]

theorem setStatuses_map_rebuild {σ τ τ2 : Type} (F1 F2 : Config σ τ → τ)
    (g : τ → τ2)
    (h : ∀ c : Config σ τ, g (F2 { c with status := F1 c }) = g (F1 c)) :
    ∀ cs : List (Config σ τ),
    ((setStatuses cs (cs.map F1)).map F2).map g = (cs.map F1).map g := by
  intro cs
  induction cs with
  | nil => rfl
  | cons c cs ih =>
    show ((({ c with status := F1 c } : Config σ τ)
        :: setStatuses cs (cs.map F1)).map F2).map g = _
    rw [List.map_cons, List.map_cons, List.map_cons, List.map_cons, h c, ih]

theorem setStatuses_map_rebuild_id {σ τ : Type} (F1 F2 : Config σ τ → τ)
    (h : ∀ c : Config σ τ, F2 { c with status := F1 c } = F1 c) :
    ∀ cs : List (Config σ τ),
    (setStatuses cs (cs.map F1)).map F2 = cs.map F1 := by
  intro cs
  induction cs with
  | nil => rfl
  | cons c cs ih =>
    show ((({ c with status := F1 c } : Config σ τ)
        :: setStatuses cs (cs.map F1)).map F2) = _
    rw [List.map_cons, List.map_cons, h c, ih]

theorem config_set_status_meta {σ τ : Type} (c : Config σ τ) (t : τ) :
    ({ c with status := t } : Config σ τ).meta = c.meta := rfl

theorem config_set_status_spec {σ τ : Type} (c : Config σ τ) (t : τ) :
    ({ c with status := t } : Config σ τ).spec = c.spec := rfl

theorem config_set_status_status {σ τ : Type} (c : Config σ τ) (t : τ) :
    ({ c with status := t } : Config σ τ).status = t := rfl

theorem listenerStatus_mk_conditions (p : Nat) (pr : String) (hn : Option String)
    (cd : List Condition) :
    ({ port := p, protocol := pr, hostname := hn, conditions := cd }
      : ListenerStatus).conditions = cd := rfl

theorem getGatewayClasses_fst_applyStatuses (r : KubernetesResources)
    (st : SnapshotStatuses) (t1 t2 : Nat) :
    (getGatewayClasses (applyStatuses r st) t2).1 = (getGatewayClasses r t1).1 := by
  show ((setStatuses r.gatewayClass st.classes).filter
      (fun obj => obj.spec.controller == controllerName)).map (fun obj => obj.meta.name)
    = (r.gatewayClass.filter
      (fun obj => obj.spec.controller == controllerName)).map (fun obj => obj.meta.name)
  apply setStatuses_filter_map
  · intro c t
    rfl
  · intro c t
    rfl

theorem fetchMeshRoutes_applyStatuses (r : KubernetesResources)
    (st : SnapshotStatuses) :
    fetchMeshRoutes (applyStatuses r st) = fetchMeshRoutes r := by
  unfold fetchMeshRoutes
  rw [show (applyStatuses r st).httpRoute = setStatuses r.httpRoute st.http from rfl]
  apply setStatuses_flatMap
  intro c t
  rfl

theorem listenerMatchCount_applyStatuses (r : KubernetesResources)
    (st : SnapshotStatuses) (obj : Config GatewaySpec GatewayStatus)
    (l : Listener) (k : RouteKey) :
    listenerMatchCount (applyStatuses r st) obj l k = listenerMatchCount r obj l k := by
  unfold listenerMatchCount fetchHTTPRoutes fetchTCPRoutes fetchTLSRoutes
  rw [show (applyStatuses r st).namespaces = r.namespaces from rfl]
  rw [show (applyStatuses r st).httpRoute = setStatuses r.httpRoute st.http from rfl]
  rw [show (applyStatuses r st).tcpRoute = setStatuses r.tcpRoute st.tcp from rfl]
  rw [show (applyStatuses r st).tlsRoute = setStatuses r.tlsRoute st.tls from rfl]
  rw [List.countP_filter, List.countP_filter, List.countP_filter,
      List.countP_filter, List.countP_filter, List.countP_filter]
  rw [setStatuses_countP
        (fun rt => (toRouteKey rt == k) && isRouteMatch rt obj.meta l.routes r.namespaces)
        (fun c t => rfl) r.httpRoute st.http,
      setStatuses_countP
        (fun rt => (toRouteKey rt == k) && isRouteMatch rt obj.meta l.routes r.namespaces)
        (fun c t => rfl) r.tcpRoute st.tcp,
      setStatuses_countP
        (fun rt => (toRouteKey rt == k) && isRouteMatch rt obj.meta l.routes r.namespaces)
        (fun c t => rfl) r.tlsRoute st.tls]

theorem convertGateway_map_applyStatuses (r : KubernetesResources)
    (st : SnapshotStatuses) (t1 t2 : Nat) :
    (convertGateway (applyStatuses r st) t2).2.1 = (convertGateway r t1).2.1 := by
  funext k
  rw [convertGateway_map, convertGateway_map]
  rw [getGatewayClasses_fst_applyStatuses r st t1 t2]
  rw [fetchMeshRoutes_applyStatuses]
  simp only [listenerMatchCount_applyStatuses]
  congr 1
  rw [show (applyStatuses r st).gateway = setStatuses r.gateway st.gateways from rfl]
  apply setStatuses_flatMap
  intro c t
  rfl

theorem convertVirtualService_fst_applyStatuses (r : KubernetesResources)
    (st : SnapshotStatuses) (m : RouteMap) (t1 t2 : Nat) :
    (convertVirtualService (applyStatuses r st) m t2).1
      = (convertVirtualService r m t1).1 := by
  unfold convertVirtualService
  simp only []
  rw [show (applyStatuses r st).tcpRoute = setStatuses r.tcpRoute st.tcp from rfl]
  rw [show (applyStatuses r st).tlsRoute = setStatuses r.tlsRoute st.tls from rfl]
  rw [show (applyStatuses r st).httpRoute = setStatuses r.httpRoute st.http from rfl]
  congr 1
  · congr 1
    · apply setStatuses_filterMap
      intro c t
      rfl
    · apply setStatuses_filterMap
      intro c t
      rfl
  · apply setStatuses_flatMap
    intro c t
    rfl

theorem processGateways_configs (r : KubernetesResources) (now : Nat)
    (classes : List String) :
    ∀ (gws : List (Config GatewaySpec GatewayStatus)) (m : RouteMap),
    (processGateways r now classes gws m).1
      = gws.filterMap (fun obj =>
          if classes.contains obj.spec.gatewayClassName
          then some (builtGatewayConfig r.domain obj) else none) := by
  intro gws
  induction gws with
  | nil => intro m; rfl
  | cons obj rest ih =>
    intro m
    show ((processGateway r now classes obj m).1.toList
        ++ (processGateways r now classes rest
            (processGateway r now classes obj m).2.1).1) = _
    rw [ih, List.filterMap_cons]
    by_cases hc : classes.contains obj.spec.gatewayClassName = true
    · have hp1 : (processGateway r now classes obj m).1
          = some (builtGatewayConfig r.domain obj) := by
        unfold processGateway
        rw [hc]
        simp only [Bool.not_true, Bool.false_eq_true, if_false]
        simp only [processListeners_proj]
        rfl
      rw [hp1, if_pos hc]
      rfl
    · have hcf : classes.contains obj.spec.gatewayClassName = false := by
        rcases Bool.eq_false_or_eq_true (classes.contains obj.spec.gatewayClassName)
          with h | h
        · exact absurd h hc
        · exact h
      have hp1 : (processGateway r now classes obj m).1 = none := by
        unfold processGateway
        rw [hcf]
        rfl
      rw [hp1, if_neg hc]
      rfl

theorem gatewayStatusAfter_spec (r : KubernetesResources) (now : Nat)
    (classes : List String) (obj : Config GatewaySpec GatewayStatus)
    (hadm : classes.contains obj.spec.gatewayClassName = true) :
    (gatewayStatusAfter r now classes obj).addresses = [] ∧
    (gatewayStatusAfter r now classes obj).conditions
      = conditionallyUpdateCondition
          (conditionallyUpdateCondition obj.status.conditions
            (gatewayReadyCondition obj.meta.generation now))
          (gatewayScheduledCondition obj.meta.generation now) ∧
    (gatewayStatusAfter r now classes obj).listeners.length
      = obj.spec.listeners.length ∧
    (∀ j, j < obj.spec.listeners.length →
      (gatewayStatusAfter r now classes obj).listeners.getD j zeroListenerStatus
        = { port := (obj.spec.listeners.getD j defaultListener).port
            protocol := (obj.spec.listeners.getD j defaultListener).protocol
            hostname := (obj.spec.listeners.getD j defaultListener).hostname
            conditions := conditionallyUpdateCondition
              ((if obj.status.listeners.length ≠ obj.spec.listeners.length
                then List.replicate obj.spec.listeners.length zeroListenerStatus
                else obj.status.listeners).getD j zeroListenerStatus).conditions
              (readyListenerCondition obj.meta.generation now) }) := by
  unfold gatewayStatusAfter
  rw [hadm]
  simp only [Bool.not_true, Bool.false_eq_true, if_false]
  set rl : List ListenerStatus := (if obj.status.listeners.length ≠ obj.spec.listeners.length then List.replicate obj.spec.listeners.length zeroListenerStatus else obj.status.listeners) with hrl
  have hlen0 : rl.length = obj.spec.listeners.length := by
    rw [hrl]
    split
    · simp
    · omega
  obtain ⟨ha2, hc2, hl2, hout2, hin2⟩ := listenersGS_spec obj now obj.spec.listeners 0 { obj.status with addresses := [], listeners := rl }
  refine ⟨ha2, by rw [hc2], by rw [hl2]; exact hlen0, ?_⟩
  intro j hj
  rw [hin2 j (by omega) (by omega) (by show j < rl.length; omega)]
  simp

theorem gatewayStatusAfter_stable (r r2 : KubernetesResources) (t1 t2 : Nat)
    (classes : List String) (obj : Config GatewaySpec GatewayStatus) :
    gatewayStatusAfter r2 t2 classes
        { obj with status := gatewayStatusAfter r t1 classes obj }
      = gatewayStatusAfter r t1 classes obj := by
  by_cases hadm : classes.contains obj.spec.gatewayClassName = true
  · obtain ⟨hSa, hSc, hSl, hSj⟩ := gatewayStatusAfter_spec r t1 classes obj hadm
    obtain ⟨h2a, h2c, h2l, h2j⟩ := gatewayStatusAfter_spec r2 t2 classes
      { obj with status := gatewayStatusAfter r t1 classes obj } hadm
    simp only [config_set_status_meta, config_set_status_spec,
      config_set_status_status] at h2c
    simp only [config_set_status_spec] at h2l
    simp only [config_set_status_meta, config_set_status_spec,
      config_set_status_status] at h2j
    apply gatewayStatus_eq
    · rw [h2a, hSa]
    · apply eq_of_getD zeroListenerStatus
      · rw [h2l, hSl]
      · intro j hj
        rw [h2l] at hj
        rw [h2j j hj, hSj j hj]
        have hc1 : ¬((gatewayStatusAfter r t1 classes obj).listeners.length
            ≠ obj.spec.listeners.length) := by
          rw [hSl]
          exact fun hh => hh rfl
        rw [if_neg hc1]
        rw [hSj j hj]
        simp only [listenerStatus_mk_conditions]
        congr 1
        exact CUC_stable _ (readyListenerCondition obj.meta.generation t1)
          (readyListenerCondition obj.meta.generation t2) rfl
          (by simp [readyListenerCondition, conditionContentDiffers])
    · rw [h2c, hSc]
      exact CUC_stable_two obj.status.conditions
        (gatewayReadyCondition obj.meta.generation t1)
        (gatewayScheduledCondition obj.meta.generation t1)
        (gatewayReadyCondition obj.meta.generation t2)
        (gatewayScheduledCondition obj.meta.generation t2)
        rfl (by simp [gatewayReadyCondition, conditionContentDiffers])
        rfl (by simp [gatewayScheduledCondition, conditionContentDiffers])
        (by show ("Ready" : String) ≠ "Scheduled"; decide)
  · have hcf : classes.contains obj.spec.gatewayClassName = false := by
      rcases Bool.eq_false_or_eq_true (classes.contains obj.spec.gatewayClassName)
        with h | h
      · exact absurd h hadm
      · exact h
    have hR : gatewayStatusAfter r t1 classes obj = obj.status := by
      unfold gatewayStatusAfter
      rw [hcf]
      rfl
    rw [hR]
    show gatewayStatusAfter r2 t2 classes obj = obj.status
    unfold gatewayStatusAfter
    rw [hcf]
    rfl

theorem routeStatuses_stable (m : RouteMap) (t1 t2 : Nat)
    (cs : List (Config RouteSpec RouteStatus)) :
    ((setStatuses cs (cs.map (fun obj =>
        if (m (toRouteKey obj)).isEmpty then obj.status
        else { gateways := createRouteStatus (m (toRouteKey obj)) obj t1 }))).map
      (fun obj =>
        if (m (toRouteKey obj)).isEmpty then obj.status
        else { gateways := createRouteStatus (m (toRouteKey obj)) obj t2 })).map
      stripRouteStatusTime
    = ((cs.map (fun obj =>
        if (m (toRouteKey obj)).isEmpty then obj.status
        else { gateways := createRouteStatus (m (toRouteKey obj)) obj t1 }))).map
      stripRouteStatusTime := by
  apply setStatuses_map_rebuild
  intro c
  simp only []
  by_cases he : (m (toRouteKey c)).isEmpty = true
  · rw [if_pos he, if_pos he]
  · rw [if_neg he]
    have he2 : ¬((m (toRouteKey { c with status :=
        ({ gateways := createRouteStatus (m (toRouteKey c)) c t1 }
          : RouteStatus) })).isEmpty = true) := he
    rw [if_neg he2]
    show stripRouteStatusTime
        ({ gateways := createRouteStatus (m (toRouteKey c)) c t2 } : RouteStatus)
      = stripRouteStatusTime
        { gateways := createRouteStatus (m (toRouteKey c)) c t1 }
    simp [stripRouteStatusTime, createRouteStatus, stripConditionTime,
      List.map_map, Function.comp_def]

theorem gatewayClassStatus_mk_conditions (cd : List Condition) :
    ({ conditions := cd } : GatewayClassStatus).conditions = cd := rfl

/-- C2: one conversion pass, the in-place status write-back that the Go code
performs on the snapshot objects, and a second conversion pass at a later
time produce exactly the same output bundle (gateway, virtual-service and
destination-rule configs with their names and order) and the same status
sets up to condition transition timestamps. -/
theorem convertResources_idempotent (r : KubernetesResources) (t1 t2 : Nat) :
    (convertResources (applyStatuses r (convertResources r t1).2) t2).1
      = (convertResources r t1).1
    ∧ stripSnapshotTimes
        (convertResources (applyStatuses r (convertResources r t1).2) t2).2
      = stripSnapshotTimes (convertResources r t1).2 := by
  have hm : (convertGateway (applyStatuses r (convertResources r t1).2) t2).2.1
      = (convertGateway r t1).2.1 :=
    convertGateway_map_applyStatuses r (convertResources r t1).2 t1 t2
  have hg : (convertGateway (applyStatuses r (convertResources r t1).2) t2).1
      = (convertGateway r t1).1 := by
    show (processGateways (applyStatuses r (convertResources r t1).2) t2
        (getGatewayClasses (applyStatuses r (convertResources r t1).2) t2).1
        (applyStatuses r (convertResources r t1).2).gateway emptyRouteMap).1
      = (processGateways r t1 (getGatewayClasses r t1).1 r.gateway emptyRouteMap).1
    rw [processGateways_configs, processGateways_configs,
        getGatewayClasses_fst_applyStatuses r (convertResources r t1).2 t1 t2]
    rw [show (applyStatuses r (convertResources r t1).2).gateway
        = setStatuses r.gateway ((convertResources r t1).2.gateways) from rfl]
    apply setStatuses_filterMap
    intro c t
    rfl
  have hcls : (convertGateway (applyStatuses r (convertResources r t1).2) t2).2.2.1
      = (convertGateway r t1).2.2.1 := by
    show (setStatuses r.gatewayClass ((convertResources r t1).2.classes)).map
        (fun obj => if obj.spec.controller == controllerName
          then ({ conditions := conditionallyUpdateCondition obj.status.conditions (admittedClassCondition obj.meta.generation t2) } : GatewayClassStatus)
          else obj.status)
      = r.gatewayClass.map
        (fun obj => if obj.spec.controller == controllerName
          then ({ conditions := conditionallyUpdateCondition obj.status.conditions (admittedClassCondition obj.meta.generation t1) } : GatewayClassStatus)
          else obj.status)
    rw [show (convertResources r t1).2.classes
        = r.gatewayClass.map
          (fun obj => if obj.spec.controller == controllerName
            then ({ conditions := conditionallyUpdateCondition obj.status.conditions (admittedClassCondition obj.meta.generation t1) } : GatewayClassStatus)
            else obj.status) from rfl]
    apply setStatuses_map_rebuild_id
    intro c
    simp only []
    by_cases hc : (c.spec.controller == controllerName) = true
    · simp only [config_set_status_spec, config_set_status_status,
        config_set_status_meta, hc, if_true, gatewayClassStatus_mk_conditions]
      rw [CUC_stable c.status.conditions
        (admittedClassCondition c.meta.generation t1)
        (admittedClassCondition c.meta.generation t2) rfl
        (by simp [admittedClassCondition, conditionContentDiffers])]
    · have hcf : (c.spec.controller == controllerName) = false := by
        rcases Bool.eq_false_or_eq_true (c.spec.controller == controllerName)
          with h | h
        · exact absurd h hc
        · exact h
      simp only [config_set_status_spec, config_set_status_status, hcf,
        Bool.false_eq_true, if_false]
  have hst_g : (convertResources r t1).2.gateways
      = r.gateway.map (gatewayStatusAfter r t1 (getGatewayClasses r t1).1) := by
    show (processGateways r t1 (getGatewayClasses r t1).1 r.gateway emptyRouteMap).2.2
      = r.gateway.map (gatewayStatusAfter r t1 (getGatewayClasses r t1).1)
    rw [processGateways_statuses]
  have hgs : (convertGateway (applyStatuses r (convertResources r t1).2) t2).2.2.2
      = (convertGateway r t1).2.2.2 := by
    show (processGateways (applyStatuses r (convertResources r t1).2) t2
        (getGatewayClasses (applyStatuses r (convertResources r t1).2) t2).1
        (applyStatuses r (convertResources r t1).2).gateway emptyRouteMap).2.2
      = (processGateways r t1 (getGatewayClasses r t1).1 r.gateway emptyRouteMap).2.2
    rw [processGateways_statuses, processGateways_statuses,
        getGatewayClasses_fst_applyStatuses r (convertResources r t1).2 t1 t2]
    rw [show (applyStatuses r (convertResources r t1).2).gateway
        = setStatuses r.gateway ((convertResources r t1).2.gateways) from rfl]
    rw [hst_g]
    apply setStatuses_map_rebuild_id
    intro c
    exact gatewayStatusAfter_stable r (applyStatuses r (convertResources r t1).2)
      t1 t2 (getGatewayClasses r t1).1 c
  refine ⟨?_, ?_⟩
  · show ({ gateway := (convertGateway (applyStatuses r (convertResources r t1).2) t2).1
            virtualService := (convertVirtualService
              (applyStatuses r (convertResources r t1).2)
              (convertGateway (applyStatuses r (convertResources r t1).2) t2).2.1 t2).1
            destinationRule := convertDestinationRule
              (applyStatuses r (convertResources r t1).2) } : OutputResources)
      = { gateway := (convertGateway r t1).1
          virtualService := (convertVirtualService r (convertGateway r t1).2.1 t1).1
          destinationRule := convertDestinationRule r }
    rw [hg, hm,
        convertVirtualService_fst_applyStatuses r (convertResources r t1).2
          ((convertGateway r t1).2.1) t1 t2,
        show convertDestinationRule (applyStatuses r (convertResources r t1).2)
          = convertDestinationRule r from rfl]
  · show stripSnapshotTimes
        ({ classes := (convertGateway (applyStatuses r (convertResources r t1).2) t2).2.2.1
           gateways := (convertGateway (applyStatuses r (convertResources r t1).2) t2).2.2.2
           tcp := (convertVirtualService (applyStatuses r (convertResources r t1).2)
             (convertGateway (applyStatuses r (convertResources r t1).2) t2).2.1 t2).2.1
           tls := (convertVirtualService (applyStatuses r (convertResources r t1).2)
             (convertGateway (applyStatuses r (convertResources r t1).2) t2).2.1 t2).2.2.1
           http := (convertVirtualService (applyStatuses r (convertResources r t1).2)
             (convertGateway (applyStatuses r (convertResources r t1).2) t2).2.1 t2).2.2.2 }
          : SnapshotStatuses)
      = stripSnapshotTimes
        { classes := (convertGateway r t1).2.2.1
          gateways := (convertGateway r t1).2.2.2
          tcp := (convertVirtualService r (convertGateway r t1).2.1 t1).2.1
          tls := (convertVirtualService r (convertGateway r t1).2.1 t1).2.2.1
          http := (convertVirtualService r (convertGateway r t1).2.1 t1).2.2.2 }
    rw [hm, hcls, hgs]
    simp only [stripSnapshotTimes, SnapshotStatuses.mk.injEq]
    refine ⟨trivial, trivial, ?_, ?_, ?_⟩
    · exact routeStatuses_stable ((convertGateway r t1).2.1) t1 t2 r.tcpRoute
    · exact routeStatuses_stable ((convertGateway r t1).2.1) t1 t2 r.tlsRoute
    · exact routeStatuses_stable ((convertGateway r t1).2.1) t1 t2 r.httpRoute

end Istio
